import Mathlib

/-!
Verification development for the gpuport/collectors export pipeline engine.

The Python source under `src/gpuport_collectors` is shallowly embedded:
Python runtime values flowing through the pipeline are modelled by the
inductive type `JVal` (rationals stand for Python ints/floats; the string
model is exact at the ASCII level, which covers every concrete value in
this development), fallible functions return `Except`, and the effectful
boundaries (wall-clock time, the filesystem, remote writers) are passed in
explicitly as oracle parameters.
-/

set_option maxHeartbeats 1000000

/-- Standardized availability status enum from `models.AvailabilityStatus`
(a `str`-valued Python enum). -/
inductive AvailabilityStatus where
  | high
  | medium
  | low
  | notAvailable
deriving DecidableEq, Repr

/-- The `str` value carried by each `AvailabilityStatus` member. -/
def AvailabilityStatus.value : AvailabilityStatus → String
  | .high => "High"
  | .medium => "Medium"
  | .low => "Low"
  | .notAvailable => "Not Available"

/-- The Python member name of each `AvailabilityStatus` member, as used
by `Enum.__str__`. -/
def AvailabilityStatus.memberName : AvailabilityStatus → String
  | .high => "HIGH"
  | .medium => "MEDIUM"
  | .low => "LOW"
  | .notAvailable => "NOT_AVAILABLE"

/-- Model of the Python runtime values that flow through the export
pipeline: `none` models Python `None`, `int`/`num` model Python
`int`/`float` (as exact rationals), `str` models `str`, `avail` models the
`AvailabilityStatus` str-enum, and `arr`/`obj` model `list`/`dict`. -/
inductive JVal where
  | none
  | bool (b : Bool)
  | int (n : Int)
  | num (q : ℚ)
  | str (s : String)
  | avail (a : AvailabilityStatus)
  | arr (l : List JVal)
  | obj (l : List (String × JVal))

/-- Numeric content of a Python value, when it has one (`bool` is an `int`
subclass in Python, so `True` counts as `1`). -/
def JVal.asNum : JVal → Option ℚ
  | .bool b => some (if b then 1 else 0)
  | .int n => some (n : ℚ)
  | .num q => some q
  | _ => Option.none

mutual

/-- Python `==` on embedded values. It never raises for the value shapes
reachable in this code base; numeric values compare across `bool`, `int`
and `float`, and the str-enum `AvailabilityStatus` compares equal to its
string value. -/
def pyEq : JVal → JVal → Bool
  | .none, .none => true
  | .str s, .str t => s == t
  | .avail a, .avail b => a == b
  | .avail a, .str s => a.value == s
  | .str s, .avail a => s == a.value
  | .arr l, .arr r => pyEqList l r
  | .obj l, .obj r => pyEqObj l r
  | u, v =>
    match u.asNum, v.asNum with
    | some a, some b => a == b
    | _, _ => false

/-- Elementwise Python `==` on lists. -/
def pyEqList : List JVal → List JVal → Bool
  | [], [] => true
  | u :: us, v :: vs => pyEq u v && pyEqList us vs
  | _, _ => false

/-- Python `==` on dicts, modelled on association lists in key order
(dicts produced by this code base are built in a deterministic order). -/
def pyEqObj : List (String × JVal) → List (String × JVal) → Bool
  | [], [] => true
  | (k, u) :: us, (k2, v) :: vs => k == k2 && pyEq u v && pyEqObj us vs
  | _, _ => false

end

/-- Python `<` on embedded values; `Except.error ()` models the
`TypeError` raised on incomparable operands. String comparison is code
point order, numeric comparison spans `bool`/`int`/`float`, and the
str-enum compares as its string value. List-list comparison cannot arise
here (no `GPUInstance` field is a list), so it is mapped to the error
case. -/
def pyLt : JVal → JVal → Except Unit Bool
  | .str s, .str t => .ok (s < t)
  | .avail a, .str s => .ok (a.value < s)
  | .str s, .avail a => .ok (s < a.value)
  | .avail a, .avail b => .ok (a.value < b.value)
  | u, v =>
    match u.asNum, v.asNum with
    | some a, some b => .ok (a < b)
    | _, _ => .error ()

/-- Python `<=`, with the same domain as `pyLt`. -/
def pyLe : JVal → JVal → Except Unit Bool
  | .str s, .str t => .ok (s ≤ t)
  | .avail a, .str s => .ok (a.value ≤ s)
  | .str s, .avail a => .ok (s ≤ a.value)
  | .avail a, .avail b => .ok (a.value ≤ b.value)
  | u, v =>
    match u.asNum, v.asNum with
    | some a, some b => .ok (a ≤ b)
    | _, _ => .error ()

/-- Normalized GPU instance data model (`models.GPUInstance`). Optional
fields model `None`-able pydantic fields; `raw_data` is the open-ended
provider payload. The pydantic field validators (non-empty strings, price
ceiling, timestamp window) constrain construction and are not needed by
the claims below. -/
structure GPUInstance where
  provider : String
  instance_type : String
  v_cpus : Option ℚ := Option.none
  memory_gib : Option ℚ := Option.none
  arch : Option String := Option.none
  accelerator_name : String
  accelerator_count : ℚ
  accelerator_mem_gib : Option ℚ := Option.none
  gpu_info : Option String := Option.none
  region : String
  availability_zone : Option String := Option.none
  price : ℚ
  spot_price : Option ℚ := Option.none
  availability : AvailabilityStatus
  quantity : Option Int := Option.none
  collected_at : Int := 0
  raw_data : List (String × JVal) := []

/-- The data fields of `GPUInstance`, in declaration order (the order
pydantic `model_dump` emits them). -/
def gpuInstanceFields : List String :=
  ["provider", "instance_type", "v_cpus", "memory_gib", "arch",
   "accelerator_name", "accelerator_count", "accelerator_mem_gib",
   "gpu_info", "region", "availability_zone", "price", "spot_price",
   "availability", "quantity", "collected_at", "raw_data"]

/-- Python `getattr` on a `GPUInstance` data field, as the raw attribute
value (`JVal.none` for a `None`-valued optional field). Returns
`Option.none` when the attribute does not exist (methods and pydantic
machinery attributes are outside the model). -/
def getattrGPU (i : GPUInstance) : String → Option JVal
  | "provider" => some (.str i.provider)
  | "instance_type" => some (.str i.instance_type)
  | "v_cpus" => some (match i.v_cpus with | some q => .num q | _ => .none)
  | "memory_gib" => some (match i.memory_gib with | some q => .num q | _ => .none)
  | "arch" => some (match i.arch with | some s => .str s | _ => .none)
  | "accelerator_name" => some (.str i.accelerator_name)
  | "accelerator_count" => some (.num i.accelerator_count)
  | "accelerator_mem_gib" =>
    some (match i.accelerator_mem_gib with | some q => .num q | _ => .none)
  | "gpu_info" => some (match i.gpu_info with | some s => .str s | _ => .none)
  | "region" => some (.str i.region)
  | "availability_zone" =>
    some (match i.availability_zone with | some s => .str s | _ => .none)
  | "price" => some (.num i.price)
  | "spot_price" => some (match i.spot_price with | some q => .num q | _ => .none)
  | "availability" => some (.avail i.availability)
  | "quantity" => some (match i.quantity with | some n => .int n | _ => .none)
  | "collected_at" => some (.int i.collected_at)
  | "raw_data" => some (.obj i.raw_data)
  | _ => Option.none

/-- Errors raised by the filter engine (`filters.FilterError`), split by
the raising branch. `evalError` models a `TypeError`/`ValueError` caught
and wrapped by `apply_filter`. -/
inductive FilterErr where
  | fieldNotFound (field : String)
  | requiresValue (op : String)
  | requiresValues (op : String)
  | requiresMinMax
  | nonStringField (op : String)
  | unknownOperator (op : String)
  | evalError (field : String)
deriving DecidableEq, Repr

/-- Configuration for filtering GPU instances (`config.FilterConfig`).
The `operator` field carries the raw operator token; the pydantic
`Literal` check and the `validate_operator_fields` model validator are
modelled by `filterConfigValid` below. -/
structure FilterConfig where
  field : String
  operator : String
  value : Option JVal := Option.none
  values : Option (List JVal) := Option.none
  min : Option ℚ := Option.none
  max : Option ℚ := Option.none

/-- The operator tokens admitted by the pydantic `Literal` type on
`FilterConfig.operator`. -/
def filterOperators : List String :=
  ["eq", "ne", "lt", "lte", "gt", "gte", "between", "in", "not_in",
   "regex", "contains", "starts_with", "is_null", "is_not_null"]

/-- The `FilterConfig.validate_operator_fields` model validator: operators
that need `value` must have it, `in`/`not_in` need `values`, and `between`
needs both `min` and `max`. -/
def validate_operator_fields (cfg : FilterConfig) : Bool :=
  (!(["eq", "ne", "lt", "lte", "gt", "gte", "regex", "contains",
      "starts_with"].contains cfg.operator && cfg.value.isNone)) &&
  (!(["in", "not_in"].contains cfg.operator && cfg.values.isNone)) &&
  (!(cfg.operator == "between" && (cfg.min.isNone || cfg.max.isNone)))

/-- Construction-time validity of a `FilterConfig`: the pydantic `Literal`
check on the operator token plus `validate_operator_fields`. Every
`FilterConfig` that pydantic successfully constructs satisfies this. -/
def filterConfigValid (cfg : FilterConfig) : Bool :=
  filterOperators.contains cfg.operator && validate_operator_fields cfg

/-- Model of `filters.get_field_value`: raises `FilterError` when the
clause names a non-existent attribute. -/
def get_field_value (inst : GPUInstance) (field : String) :
    Except FilterErr JVal :=
  match getattrGPU inst field with
  | some v => .ok v
  | Option.none => .error (.fieldNotFound field)

/-- Substring test on character lists: the needle occurs contiguously in
the haystack. -/
def listIsInfix (needle hay : List Char) : Bool :=
  (List.range (hay.length + 1)).any (fun k => needle.isPrefixOf (hay.drop k))

/-- Model of Python `re.search` as used by the `regex` operator, for the
literal (metacharacter-free) patterns exercised in this development: an
unanchored substring search. No claim depends on regex metacharacter
semantics. -/
def regexSearch (pattern s : String) : Bool :=
  listIsInfix pattern.toList s.toList

/-- Decimal digits of a natural number (standard base-10 rendering),
with enough fuel for the division chain. -/
def natDigitsGo (fuel n : Nat) : List Char :=
  match fuel with
  | 0 => []
  | fuel + 1 =>
    if n < 10 then [Char.ofNat (48 + n)]
    else natDigitsGo fuel (n / 10) ++ [Char.ofNat (48 + n % 10)]

/-- Python `str()`/`repr` of a nonnegative integer. -/
def natToString (n : Nat) : String :=
  String.mk (natDigitsGo (n + 1) n)

/-- Python `str()`/`repr` of an integer. -/
def intToString (i : Int) : String :=
  if i < 0 then "-" ++ natToString i.natAbs else natToString i.natAbs

/-- Decimal rendering of a Python `float` modelled as a rational, matching
`repr`/`json.dumps` for the decimal-valued floats this code base handles:
integral values render with a trailing `.0`, other decimal fractions with
their exact digits. (Non-decimal rationals cannot arise from parsed
configuration or provider data; they get a fallback fraction rendering.) -/
def renderDecimal (q : ℚ) : String :=
  if q.den = 1 then intToString q.num ++ ".0"
  else
    match (List.range 30).find? (fun k => (q * (10 : ℚ) ^ (k + 1)).den = 1) with
    | some k =>
      let n := k + 1
      let scaled := q.num.natAbs * 10 ^ n / q.den
      let ip := scaled / 10 ^ n
      let fp := scaled % 10 ^ n
      let fpStr := natToString fp
      let fpPad := String.mk (List.replicate (n - fpStr.length) (Char.ofNat 48)) ++ fpStr
      (if q.num < 0 then "-" else "") ++ natToString ip ++ "." ++ fpPad
    | Option.none => intToString q.num ++ "/" ++ natToString q.den

/-- Python `str()` of an embedded value, as needed by the string-operand
coercions in `apply_filter` (`str(filter_config.value)`); config operands
there are strings or numbers in practice. -/
def pyStr : JVal → String
  | .str s => s
  | .bool b => if b then "True" else "False"
  | .int n => intToString n
  | .num q => renderDecimal q
  | .none => "None"
  | .avail a => "AvailabilityStatus." ++ a.memberName
  | .arr _ => "[...]"
  | .obj _ => "{...}"

/-- Python `in` on a list operand: membership via `==`. -/
def pyMem (v : JVal) (l : List JVal) : Bool :=
  l.any (fun w => pyEq v w)

/-- The operator dispatch of `filters.apply_filter`, applied to the
already-fetched field value. Mirrors the source branch for branch,
including the operand-presence checks re-done at evaluation time and the
final unknown-operator fallback. A `TypeError` from an incomparable
comparison surfaces as `evalError` (the source wraps it into a
`FilterError`). -/
def apply_filter_op (field_value : JVal) (cfg : FilterConfig) :
    Except FilterErr Bool :=
  if cfg.operator == "eq" then
    match cfg.value with
    | Option.none => .error (.requiresValue "eq")
    | some v => .ok (pyEq field_value v)
  else if cfg.operator == "ne" then
    match cfg.value with
    | Option.none => .error (.requiresValue "ne")
    | some v => .ok (!pyEq field_value v)
  else if cfg.operator == "lt" then
    match cfg.value with
    | Option.none => .error (.requiresValue "lt")
    | some v =>
      match field_value with
      | .none => .ok false
      | fv =>
        match pyLt fv v with
        | .ok b => .ok b
        | .error _ => .error (.evalError cfg.field)
  else if cfg.operator == "lte" then
    match cfg.value with
    | Option.none => .error (.requiresValue "lte")
    | some v =>
      match field_value with
      | .none => .ok false
      | fv =>
        match pyLe fv v with
        | .ok b => .ok b
        | .error _ => .error (.evalError cfg.field)
  else if cfg.operator == "gt" then
    match cfg.value with
    | Option.none => .error (.requiresValue "gt")
    | some v =>
      match field_value with
      | .none => .ok false
      | fv =>
        match pyLt v fv with
        | .ok b => .ok b
        | .error _ => .error (.evalError cfg.field)
  else if cfg.operator == "gte" then
    match cfg.value with
    | Option.none => .error (.requiresValue "gte")
    | some v =>
      match field_value with
      | .none => .ok false
      | fv =>
        match pyLe v fv with
        | .ok b => .ok b
        | .error _ => .error (.evalError cfg.field)
  else if cfg.operator == "between" then
    match cfg.min, cfg.max with
    | some mn, some mx =>
      match field_value with
      | .none => .ok false
      | fv =>
        match pyLe (.num mn) fv with
        | .error _ => .error (.evalError cfg.field)
        | .ok false => .ok false
        | .ok true =>
          match pyLe fv (.num mx) with
          | .error _ => .error (.evalError cfg.field)
          | .ok b => .ok b
    | _, _ => .error .requiresMinMax
  else if cfg.operator == "in" then
    match cfg.values with
    | Option.none => .error (.requiresValues "in")
    | some vs => .ok (pyMem field_value vs)
  else if cfg.operator == "not_in" then
    match cfg.values with
    | Option.none => .error (.requiresValues "not_in")
    | some vs => .ok (!pyMem field_value vs)
  else if cfg.operator == "regex" then
    match cfg.value with
    | Option.none => .error (.requiresValue "regex")
    | some v =>
      match field_value with
      | .none => .ok false
      | .str s => .ok (regexSearch (pyStr v) s)
      | .avail a => .ok (regexSearch (pyStr v) a.value)
      | _ => .error (.nonStringField "regex")
  else if cfg.operator == "contains" then
    match cfg.value with
    | Option.none => .error (.requiresValue "contains")
    | some v =>
      match field_value with
      | .none => .ok false
      | .str s => .ok (listIsInfix (pyStr v).toList s.toList)
      | .avail a => .ok (listIsInfix (pyStr v).toList a.value.toList)
      | _ => .error (.nonStringField "contains")
  else if cfg.operator == "starts_with" then
    match cfg.value with
    | Option.none => .error (.requiresValue "starts_with")
    | some v =>
      match field_value with
      | .none => .ok false
      | .str s => .ok ((pyStr v).isPrefixOf s)
      | .avail a => .ok ((pyStr v).isPrefixOf a.value)
      | _ => .error (.nonStringField "starts_with")
  else if cfg.operator == "is_null" then
    .ok (field_value matches .none)
  else if cfg.operator == "is_not_null" then
    .ok (!(field_value matches .none))
  else
    .error (.unknownOperator cfg.operator)

/-- Model of `filters.apply_filter`: fetch the field value, then dispatch
on the operator. -/
def apply_filter (inst : GPUInstance) (cfg : FilterConfig) :
    Except FilterErr Bool :=
  match get_field_value inst cfg.field with
  | .error e => .error e
  | .ok field_value => apply_filter_op field_value cfg

/-- Model of `filters.apply_filters`: conjunction of all clauses
(Python `all` over a generator: short-circuits on the first `False`,
propagates the first error). -/
def apply_filters (inst : GPUInstance) : List FilterConfig →
    Except FilterErr Bool
  | [] => .ok true
  | cfg :: rest =>
    match apply_filter inst cfg with
    | .error e => .error e
    | .ok false => .ok false
    | .ok true => apply_filters inst rest

/-- Model of `filters.filter_instances`: an empty clause list returns the
input list unchanged; otherwise keep the instances passing all clauses,
in order, propagating the first filter error. -/
def filter_instances (instances : List GPUInstance)
    (filters : List FilterConfig) : Except FilterErr (List GPUInstance) :=
  if filters.isEmpty then .ok instances
  else
    instances.foldr
      (fun i acc =>
        match apply_filters i filters with
        | .error e => .error e
        | .ok true => match acc with
          | .error e => .error e
          | .ok rest => .ok (i :: rest)
        | .ok false => acc)
      (.ok [])

/-- Lowercase hex digit. -/
def hexDigit (n : Nat) : Char :=
  if n < 10 then Char.ofNat (48 + n) else Char.ofNat (87 + n)

/-- Four lowercase hex digits, as in a JSON `\u` escape. -/
def hex4 (n : Nat) : String :=
  String.mk [hexDigit (n / 4096 % 16), hexDigit (n / 256 % 16),
             hexDigit (n / 16 % 16), hexDigit (n % 16)]

/-- JSON string escaping of one character, as performed by Python
`json.dumps`: quote, backslash and control characters are escaped, and
with `ensure_ascii` every non-ASCII character becomes a `\u` escape
(using a surrogate pair above the BMP). -/
def jsonEscapeChar (ensureAscii : Bool) (c : Char) : String :=
  if c = Char.ofNat 34 then "\\\""
  else if c = Char.ofNat 92 then "\\\\"
  else if c = Char.ofNat 10 then "\\n"
  else if c = Char.ofNat 13 then "\\r"
  else if c = Char.ofNat 9 then "\\t"
  else if c = Char.ofNat 8 then "\\b"
  else if c = Char.ofNat 12 then "\\f"
  else if c.toNat < 32 then "\\u" ++ hex4 c.toNat
  else if ensureAscii && 128 ≤ c.toNat then
    if c.toNat < 65536 then "\\u" ++ hex4 c.toNat
    else
      "\\u" ++ hex4 (55296 + (c.toNat - 65536) / 1024) ++
      "\\u" ++ hex4 (56320 + (c.toNat - 65536) % 1024)
  else String.singleton c

/-- Concatenation of a list of strings (Python `"".join`). -/
def concatList : List String → String
  | [] => ""
  | s :: rest => s ++ concatList rest

/-- JSON string literal for `s` (quotes plus escaped content). -/
def jsonQuote (ensureAscii : Bool) (s : String) : String :=
  "\"" ++ concatList (s.toList.map (jsonEscapeChar ensureAscii)) ++ "\""

/-- Left brace as a string. -/
def lbrace : String := "\x7b"

/-- Right brace as a string. -/
def rbrace : String := "\x7d"

mutual

/-- Python `json.dumps` with `indent=None`: single-line output with the
default separators (a comma plus one space between items, a colon plus
one space after each key). String subclasses (the str-enum) serialize as
their string value. -/
def dumpsCompact (ea : Bool) : JVal → String
  | .none => "null"
  | .bool b => if b then "true" else "false"
  | .int n => intToString n
  | .num q => renderDecimal q
  | .str s => jsonQuote ea s
  | .avail a => jsonQuote ea a.value
  | .arr l => "[" ++ dumpsCompactArr ea l ++ "]"
  | .obj l => lbrace ++ dumpsCompactObj ea l ++ rbrace

/-- Array items of compact `json.dumps`, joined by a comma and a space. -/
def dumpsCompactArr (ea : Bool) : List JVal → String
  | [] => ""
  | [v] => dumpsCompact ea v
  | v :: rest => dumpsCompact ea v ++ ", " ++ dumpsCompactArr ea rest

/-- Object entries of compact `json.dumps`: key, colon, space, value,
entries joined by a comma and a space. -/
def dumpsCompactObj (ea : Bool) : List (String × JVal) → String
  | [] => ""
  | [(k, v)] => jsonQuote ea k ++ ": " ++ dumpsCompact ea v
  | (k, v) :: rest =>
    jsonQuote ea k ++ ": " ++ dumpsCompact ea v ++ ", " ++
    dumpsCompactObj ea rest

end

/-- Indentation prefix for pretty `json.dumps` at the given depth with a
two-space indent unit. -/
def indentStr (level : Nat) : String :=
  String.mk (List.replicate (2 * level) (Char.ofNat 32))

mutual

/-- Python `json.dumps` with `indent=2`: multi-line output, each nesting
level indented by two more spaces, items separated by a comma and a
newline, keys followed by a colon and a space; empty containers stay on
one line. -/
def dumpsPretty (ea : Bool) (level : Nat) : JVal → String
  | .none => "null"
  | .bool b => if b then "true" else "false"
  | .int n => intToString n
  | .num q => renderDecimal q
  | .str s => jsonQuote ea s
  | .avail a => jsonQuote ea a.value
  | .arr [] => "[]"
  | .arr (v :: rest) =>
    "[\n" ++ indentStr (level + 1) ++
    dumpsPrettyArr ea (level + 1) (v :: rest) ++
    "\n" ++ indentStr level ++ "]"
  | .obj [] => lbrace ++ rbrace
  | .obj (e :: rest) =>
    lbrace ++ "\n" ++ indentStr (level + 1) ++
    dumpsPrettyObj ea (level + 1) (e :: rest) ++
    "\n" ++ indentStr level ++ rbrace

/-- Array items of pretty `json.dumps`, each on its own indented line. -/
def dumpsPrettyArr (ea : Bool) (level : Nat) : List JVal → String
  | [] => ""
  | [v] => dumpsPretty ea level v
  | v :: w :: rest =>
    dumpsPretty ea level v ++ ",\n" ++ indentStr level ++
    dumpsPrettyArr ea level (w :: rest)

/-- Object entries of pretty `json.dumps`, each on its own indented
line. -/
def dumpsPrettyObj (ea : Bool) (level : Nat) : List (String × JVal) → String
  | [] => ""
  | [(k, v)] => jsonQuote ea k ++ ": " ++ dumpsPretty ea level v
  | (k, v) :: f :: rest =>
    jsonQuote ea k ++ ": " ++ dumpsPretty ea level v ++ ",\n" ++
    indentStr level ++ dumpsPrettyObj ea level (f :: rest)

end

/-- Configuration for JSON transformation
(`config.JSONTransformerConfig`). `null_handling` carries the raw token;
the pydantic `Literal` restricts it to `omit`/`null`/`empty` at
construction time. -/
structure JSONTransformerConfig where
  format : String := "json"
  fields : Option (List (String × String)) := Option.none
  include_raw_data : Bool := false
  pretty_print : Bool := false
  flatten_nested : Bool := false
  null_handling : String := "null"

/-- The `(name, value)` pairs of pydantic `model_dump(mode="json")` on a
`GPUInstance` before the `exclude_none` filter: fields in declaration
order, the enum serialized to its string value, `None` as
`Option.none`. -/
def model_dump_pairs (i : GPUInstance) : List (String × Option JVal) :=
  [("provider", some (.str i.provider)),
   ("instance_type", some (.str i.instance_type)),
   ("v_cpus", i.v_cpus.map JVal.num),
   ("memory_gib", i.memory_gib.map JVal.num),
   ("arch", i.arch.map JVal.str),
   ("accelerator_name", some (.str i.accelerator_name)),
   ("accelerator_count", some (.num i.accelerator_count)),
   ("accelerator_mem_gib", i.accelerator_mem_gib.map JVal.num),
   ("gpu_info", i.gpu_info.map JVal.str),
   ("region", some (.str i.region)),
   ("availability_zone", i.availability_zone.map JVal.str),
   ("price", some (.num i.price)),
   ("spot_price", i.spot_price.map JVal.num),
   ("availability", some (.str i.availability.value)),
   ("quantity", i.quantity.map JVal.int),
   ("collected_at", some (.int i.collected_at)),
   ("raw_data", some (.obj i.raw_data))]

/-- Pydantic `model_dump(mode="json", exclude_none=...)` on a
`GPUInstance`: with `exclude_none` the `None`-valued fields are dropped,
otherwise they appear as JSON null. -/
def model_dump (exclude_none : Bool) (i : GPUInstance) :
    List (String × JVal) :=
  if exclude_none then
    (model_dump_pairs i).filterMap (fun p => p.2.map (fun v => (p.1, v)))
  else
    (model_dump_pairs i).map (fun p => (p.1, p.2.getD JVal.none))

/-- One Python dict assignment `d[k] = v` on an insertion-ordered dict:
an existing key keeps its position and takes the new value, a new key is
appended. -/
def dictSet (k : String) (v : JVal) (d : List (String × JVal)) :
    List (String × JVal) :=
  if d.any (fun p => p.1 == k) then
    d.map (fun p => if p.1 == k then (k, v) else p)
  else d ++ [(k, v)]

/-- The field-selection dict comprehension of `transform_to_json`
(`\x7boutput_name: item[source_field] ...\x7d`): one dict assignment per
rename-map entry whose source field is present, so a duplicate target
alias keeps its first position and takes its last value. -/
def selectRename (m : List (String × String))
    (item : List (String × JVal)) : List (String × JVal) :=
  m.foldl (fun d p =>
    match item.lookup p.1 with
    | some v => dictSet p.2 v d
    | Option.none => d) []

/-- The record list `transform_to_json` builds right before serializing:
dump each instance (dropping nulls when `null_handling` is `omit`), apply
the field-selection/rename step when a nonempty rename map is supplied
(Python truthiness: an empty dict behaves like `None`), strip the
`raw_data` key unless `include_raw_data`, then substitute empty strings
for nulls when `null_handling` is `empty`. -/
def jsonTransformData (instances : List GPUInstance)
    (config : JSONTransformerConfig) : List (List (String × JVal)) :=
  let data := instances.map (model_dump (config.null_handling == "omit"))
  let data := match config.fields with
    | some m =>
      if m.isEmpty then data
      else data.map (selectRename m)
    | Option.none => data
  let data :=
    if !config.include_raw_data then
      data.map (fun item => item.filter (fun p => !(p.1 == "raw_data")))
    else data
  if config.null_handling == "empty" then
    data.map (fun item => item.map (fun p =>
      (p.1, match p.2 with | .none => .str "" | v => v)))
  else data

/-- Model of `transformers.transform_to_json`: build the record list and
serialize it — indented with `ensure_ascii` off when pretty-printing,
single-line with `ensure_ascii` on otherwise. (The `TransformerError`
wrapper branch is unreachable in the model: the guarded comprehensions
raise no `KeyError` and every embedded value is serializable.) -/
def transform_to_json (instances : List GPUInstance)
    (config : JSONTransformerConfig) : String :=
  let data := JVal.arr ((jsonTransformData instances config).map JVal.obj)
  if config.pretty_print then dumpsPretty false 0 data
  else dumpsCompact true data

/-- Errors raised by the transformers (`transformers.TransformerError`),
split by the raising branch; `typeErr` models a `TypeError`/`ValueError`
caught and wrapped by the outer handler. -/
inductive TransformerErr where
  | metricRequiresField (name : String)
  | unknownMetricType (t : String)
  | metricRequiresGroupBy (name : String)
  | groupFieldNotExist (field : String)
  | typeErr
deriving DecidableEq, Repr

/-- Configuration for a single metric (`config.MetricConfig`). The
pydantic `Literal` on `type` and the `validate_field_required` model
validator are modelled by `metricConfigValid`. -/
structure MetricConfig where
  name : String
  type : String
  field : Option String := Option.none
  group_by : Option String := Option.none

/-- The aggregation tokens admitted by the pydantic `Literal` on
`MetricConfig.type`. -/
def metricTypes : List String := ["count", "avg", "min", "max", "sum", "unique"]

/-- Construction-time validity of a `MetricConfig`: the `Literal` check on
the aggregation token plus `validate_field_required` (every non-count
metric needs a `field`). -/
def metricConfigValid (m : MetricConfig) : Bool :=
  metricTypes.contains m.type && !(m.type != "count" && m.field.isNone)

/-- Configuration for metrics transformation
(`config.MetricsTransformerConfig`). -/
structure MetricsTransformerConfig where
  format : String := "json"
  type : String := "metrics"
  metrics : List MetricConfig
  include_timestamp : Bool := true
  include_collection_info : Bool := true

/-- Python `+` on embedded numbers, as used by `sum`: `int` plus `int`
stays `int` (Python `bool` adds as an `int`), any `float` operand makes
the result `float`; non-numeric operands raise `TypeError`. -/
def pyAdd (a b : JVal) : Except Unit JVal :=
  match a.asNum, b.asNum with
  | some x, some y =>
    if (a matches .num _) || (b matches .num _) then .ok (.num (x + y))
    else .ok (.int (x + y).num)
  | _, _ => .error ()

/-- Python `sum` over a list (initial accumulator `0`). -/
def pySum (l : List JVal) : Except Unit JVal :=
  l.foldlM pyAdd (.int 0)

/-- Python `min` over a nonempty list: keep the first element that every
later element fails to undercut (strict `<` against the running
minimum). -/
def pyMinList : List JVal → Except Unit JVal
  | [] => .error ()
  | v :: rest =>
    rest.foldlM (fun m w => (pyLt w m).map (fun b => if b then w else m)) v

/-- Python `max` over a nonempty list (strict `>` against the running
maximum). -/
def pyMaxList : List JVal → Except Unit JVal
  | [] => .error ()
  | v :: rest =>
    rest.foldlM (fun m w => (pyLt m w).map (fun b => if b then w else m)) v

/-- Whether a value is hashable in Python (lists and dicts are not; `set`
construction over them raises `TypeError`). -/
def pyHashable : JVal → Bool
  | .arr _ => false
  | .obj _ => false
  | _ => true

/-- Python `len(set(l))`: the number of `==`-distinct values. -/
def pyUniqueCount (l : List JVal) : Except Unit Nat :=
  if l.all pyHashable then
    .ok ((l.foldl (fun acc v => if acc.any (pyEq v) then acc else acc ++ [v])
      []).length)
  else .error ()

/-- The non-null values of `field` across the instances, as extracted by
`_compute_metric`: instances lacking the attribute are skipped, and
`None` values are filtered out. -/
def metricValues (instances : List GPUInstance) (field : String) :
    List JVal :=
  instances.filterMap (fun i =>
    match getattrGPU i field with
    | some v => match v with | .none => Option.none | w => some w
    | Option.none => Option.none)

/-- Model of `transformers._compute_metric`: `count` needs no field; the
other aggregations require one, extract the non-null values, return
Python `None` when no values remain, and otherwise aggregate. An unknown
aggregation token is a transform-time error. -/
def compute_metric (instances : List GPUInstance) (m : MetricConfig) :
    Except TransformerErr JVal :=
  if m.type == "count" then .ok (.int instances.length)
  else
    match m.field with
    | Option.none => .error (.metricRequiresField m.name)
    | some f =>
      let values := metricValues instances f
      if values.isEmpty then .ok .none
      else if m.type == "avg" then
        match pySum values with
        | .ok s =>
          match s.asNum with
          | some q => .ok (.num (q / values.length))
          | Option.none => .error .typeErr
        | .error _ => .error .typeErr
      else if m.type == "min" then
        match pyMinList values with
        | .ok v => .ok v
        | .error _ => .error .typeErr
      else if m.type == "max" then
        match pyMaxList values with
        | .ok v => .ok v
        | .error _ => .error .typeErr
      else if m.type == "sum" then
        match pySum values with
        | .ok v => .ok v
        | .error _ => .error .typeErr
      else if m.type == "unique" then
        match pyUniqueCount values with
        | .ok n => .ok (.int n)
        | .error _ => .error .typeErr
      else .error (.unknownMetricType m.type)

/-- Python truthiness of the optional `group_by` string (an empty string
is falsy, so it routes to the non-grouped aggregation). -/
def groupByTruthy (m : MetricConfig) : Bool :=
  match m.group_by with
  | some g => !g.isEmpty
  | Option.none => false

/-- Python `str(group_value)` for a group key. -/
def groupKeyOf (v : JVal) : String := pyStr v

/-- Append an instance to its group, creating the group at the end on
first sight (insertion-ordered `defaultdict`). -/
def groupInsert (key : String) (i : GPUInstance)
    (acc : List (String × List GPUInstance)) :
    List (String × List GPUInstance) :=
  if acc.any (fun p => p.1 == key) then
    acc.map (fun p => if p.1 == key then (p.1, p.2 ++ [i]) else p)
  else acc ++ [(key, [i])]

/-- Model of `transformers._compute_grouped_metric`: requires a truthy
`group_by`, rejects a nonexistent group-by field when the input is
nonempty (checked on the first instance), partitions the instances by the
string form of the group-by value (`None` under the literal key
`"null"`), and computes the metric per group. -/
def compute_grouped_metric (instances : List GPUInstance)
    (m : MetricConfig) : Except TransformerErr (List (String × JVal)) :=
  if !groupByTruthy m then .error (.metricRequiresGroupBy m.name)
  else
    match m.group_by with
    | Option.none => .error (.metricRequiresGroupBy m.name)
    | some g =>
      match instances with
      | [] => .ok []
      | i0 :: _ =>
        if (getattrGPU i0 g).isNone then .error (.groupFieldNotExist g)
        else
          let groups := instances.foldl (fun acc i =>
            let key := match getattrGPU i g with
              | some .none => "null"
              | some v => groupKeyOf v
              | Option.none => "null"
            groupInsert key i acc) []
          groups.mapM (fun p =>
            (compute_metric p.2 m).map (fun v => (p.1, v)))

/-- Model of `transformers.transform_to_metrics`: assemble the optional
`timestamp` and `collection_info` entries and one entry per metric
(grouped when `group_by` is truthy), then serialize with `indent=2`
(`ensure_ascii` at its default). Wall-clock time is passed in as the
ISO-8601 string `nowIso`. -/
def transform_to_metrics (nowIso : String) (instances : List GPUInstance)
    (config : MetricsTransformerConfig) : Except TransformerErr String :=
  let base :=
    (if config.include_timestamp then [("timestamp", JVal.str nowIso)]
     else []) ++
    (if config.include_collection_info then
      [("collection_info", JVal.obj
        [("total_instances", .int instances.length),
         ("collected_at", .str nowIso)])]
     else [])
  match config.metrics.mapM (fun mc =>
    if groupByTruthy mc then
      (compute_grouped_metric instances mc).map
        (fun g => (mc.name, JVal.obj g))
    else
      (compute_metric instances mc).map (fun v => (mc.name, v))) with
  | .error e => .error e
  | .ok metrics_data =>
    .ok (dumpsPretty true 0 (.obj (base ++ [("metrics", .obj metrics_data)])))

/-- Configuration for CSV transformation (`config.CSVTransformerConfig`);
the rename map is mandatory and its insertion order fixes the column
order. -/
structure CSVTransformerConfig where
  format : String := "csv"
  fields : List (String × String)
  include_headers : Bool := true
  delimiter : String := ","
  quote_char : String := "\""
  escape_char : String := "\\"
  line_terminator : String := "\n"
  null_value : String := ""

/-- Python `str.replace` scanning: at skip 0, test for the pattern at the
current position; on a match emit the replacement and skip the matched
length, otherwise keep the character and continue. -/
def replaceGo (p : Char) (ps repl : List Char) : Nat → List Char → List Char
  | _, [] => []
  | 0, c :: rest =>
    if (p :: ps).isPrefixOf (c :: rest) then
      repl ++ replaceGo p ps repl ps.length rest
    else c :: replaceGo p ps repl 0 rest
  | n + 1, _ :: rest => replaceGo p ps repl n rest

/-- Python `str.replace`: replace every occurrence of `pattern` left to
right, non-overlapping. (The empty pattern, which Python treats as
matching between characters, is not exercised by this code base and is
modelled as the identity.) -/
def pyReplace (s pattern repl : String) : String :=
  match pattern.toList with
  | [] => s
  | p :: ps => String.mk (replaceGo p ps repl.toList 0 s.toList)

/-- Whether the `csv` writer must quote this cell under `QUOTE_MINIMAL`:
it contains the delimiter, the quote character, a carriage return, a
newline, or a character of the line terminator. -/
def csvNeedsQuote (cfg : CSVTransformerConfig) (s : String) : Bool :=
  s.toList.any (fun c =>
    cfg.delimiter.toList.contains c || cfg.quote_char.toList.contains c ||
    cfg.line_terminator.toList.contains c ||
    c = Char.ofNat 13 || c = Char.ofNat 10)

/-- One CSV cell: quoted with the quote character doubled when quoting is
needed (the writer's default `doublequote` behavior). -/
def csvCell (cfg : CSVTransformerConfig) (s : String) : String :=
  if csvNeedsQuote cfg s then
    cfg.quote_char ++
    pyReplace s cfg.quote_char (cfg.quote_char ++ cfg.quote_char) ++
    cfg.quote_char
  else s

/-- One CSV row: cells joined by the delimiter, terminated by the line
terminator. -/
def csvRow (cfg : CSVTransformerConfig) (cells : List String) : String :=
  String.intercalate cfg.delimiter (cells.map (csvCell cfg)) ++
  cfg.line_terminator

/-- Model of `transformers.transform_to_csv`: empty input yields the empty
string (no header); otherwise dump each instance, emit the alias header
row when enabled, and map each record through the rename map, replacing
missing or `None` values by the configured null string and stringifying
the rest. -/
def transform_to_csv (instances : List GPUInstance)
    (config : CSVTransformerConfig) : String :=
  if instances.isEmpty then ""
  else
    let data := instances.map (model_dump false)
    let header :=
      if config.include_headers then
        csvRow config (config.fields.map (fun p => p.2))
      else ""
    let rows := data.map (fun row =>
      csvRow config (config.fields.map (fun p =>
        match row.lookup p.1 with
        | some .none => config.null_value
        | some v => pyStr v
        | Option.none => config.null_value)))
    header ++ String.join rows

/-- Errors raised by the output connectors (`outputs.OutputError`), split
by the raising branch relevant to this development. -/
inductive OutputErr where
  | unsubstitutedPlaceholders
  | dirMissing (dir : String)
  | overwriteRefused (path : String)
  | ioFailure (msg : String)
deriving DecidableEq, Repr

/-- Python `str.isalnum` on one character (Unicode categories L*, Nd, Nl,
No). Exact on the ASCII and Latin-1 ranges (on Latin-1 the alphanumerics
are 0xAA, 0xB2, 0xB3, 0xB5, 0xB9, 0xBA, 0xBC-0xBE and 0xC0-0xFF minus
the two operators 0xD7 and 0xF7, per the Unicode tables), which cover
every concrete character in this development; higher code points are
outside the model and mapped to false. -/
def pyIsAlnum (c : Char) : Bool :=
  if c.toNat < 128 then c.isAlphanum
  else if c.toNat ≤ 255 then
    c.toNat = 170 || c.toNat = 178 || c.toNat = 179 || c.toNat = 181 ||
    c.toNat = 185 || c.toNat = 186 ||
    (188 ≤ c.toNat && c.toNat ≤ 190) ||
    (192 ≤ c.toNat && c.toNat ≠ 215 && c.toNat ≠ 247)
  else false

/-- Model of `outputs._sanitize_path_component`: path separators become
underscores, every occurrence of `..` becomes `__`, and each remaining
character is kept only if `c.isalnum()` holds or it is in `-_.`
(otherwise replaced by an underscore). -/
def sanitize_path_component (value : String) : String :=
  let sanitized :=
    pyReplace (pyReplace (pyReplace value "/" "_") "\\" "_") ".." "__"
  String.mk (sanitized.toList.map (fun c =>
    if pyIsAlnum c || c = Char.ofNat 45 || c = Char.ofNat 95 ||
       c = Char.ofNat 46 then c
    else Char.ofNat 95))

/-- The date/time placeholder values computed at write time by
`_apply_filename_pattern` (`strftime` renderings of one `datetime.now`
call), passed in as an oracle. -/
structure NowParts where
  date : String
  time : String
  timestamp : String
  year : String
  month : String
  day : String
  hour : String
  minute : String
  second : String

/-- The standard placeholder table of `_apply_filename_pattern`, in
construction order. -/
def standardPlaceholders (now : NowParts) : List (String × String) :=
  [(lbrace ++ "date" ++ rbrace, now.date),
   (lbrace ++ "time" ++ rbrace, now.time),
   (lbrace ++ "timestamp" ++ rbrace, now.timestamp),
   (lbrace ++ "year" ++ rbrace, now.year),
   (lbrace ++ "month" ++ rbrace, now.month),
   (lbrace ++ "day" ++ rbrace, now.day),
   (lbrace ++ "hour" ++ rbrace, now.hour),
   (lbrace ++ "minute" ++ rbrace, now.minute),
   (lbrace ++ "second" ++ rbrace, now.second)]

/-- Scan for a closing brace with at least one preceding non-brace
character, the tail of the `\x7b[^\x7d]+\x7d` regex used by the
unsubstituted-placeholder check. -/
def closeSearch : List Char → Bool
  | [] => false
  | c :: rest => c = Char.ofNat 125 || closeSearch rest

/-- Whether the character list contains a match of the
`\x7b[^\x7d]+\x7d` regex (an opening brace, one or more non-closing-brace
characters, then a closing brace). -/
def hasUnsubstituted : List Char → Bool
  | [] => false
  | c :: rest =>
    (c = Char.ofNat 123 &&
      (match rest with
       | [] => false
       | d :: rest2 => d ≠ Char.ofNat 125 && closeSearch rest2)) ||
    hasUnsubstituted rest

/-- Model of `outputs._apply_filename_pattern`: substitute the standard
date/time placeholders and the sanitized metadata values (in that order),
then fail if any `\x7b...\x7d` placeholder remains. Metadata values are
passed as strings (the source applies `str()` first). -/
def apply_filename_pattern (pattern : String)
    (metadata : List (String × String)) (now : NowParts) :
    Except OutputErr String :=
  let placeholders := standardPlaceholders now ++
    metadata.map (fun p =>
      (lbrace ++ p.1 ++ rbrace, sanitize_path_component p.2))
  let result := placeholders.foldl (fun r p => pyReplace r p.1 p.2) pattern
  if hasUnsubstituted result.toList then .error .unsubstitutedPlaceholders
  else .ok result

/-- A local filesystem snapshot: contents by path (`Option.none` = no
file at that path). -/
def FS := String → Option String

/-- Create or overwrite one file. -/
def fsSet (fs : FS) (p : String) (d : String) : FS :=
  fun q => if q = p then some d else fs q

/-- Remove one file. -/
def fsDel (fs : FS) (p : String) : FS :=
  fun q => if q = p then Option.none else fs q

/-- How the effectful steps inside one `_write_atomic` call turn out:
the `write_text` either succeeds, fails leaving a partial temp file,
or fails before creating the temp file; the `replace` may then fail. -/
inductive AtomicOutcome where
  | ok
  | writePartial (partial_content : String)
  | writeNoFile
  | renameFails
deriving DecidableEq, Repr

/-- Model of `outputs._write_atomic`: write the data to `path + ".tmp"`,
atomically rename it onto `path`, and on any failure unlink the temp file
if it exists and re-raise. Returns the success flag and the resulting
filesystem. (`Path.with_suffix(path.suffix + ".tmp")` appends `.tmp` to
the final suffix, i.e. to the whole name.) -/
def write_atomic (fs : FS) (path : String) (data : String)
    (outcome : AtomicOutcome) : Bool × FS :=
  let temp_path := path ++ ".tmp"
  match outcome with
  | .ok =>
    let fs1 := fsSet fs temp_path data
    (true, fsDel (fsSet fs1 path data) temp_path)
  | .renameFails =>
    let fs1 := fsSet fs temp_path data
    (false, fsDel fs1 temp_path)
  | .writePartial w =>
    let fs1 := fsSet fs temp_path w
    (false, fsDel fs1 temp_path)
  | .writeNoFile =>
    (false, if (fs temp_path).isSome then fsDel fs temp_path else fs)

/-- How the retry loop of `base.with_retry` terminates: the re-raise of
the last attempt's error, or the defensive `RuntimeError` after the loop
(unreachable, as proved below the loop always returns or raises). -/
inductive RetryExit (E : Type) where
  | raised (e : E)
  | unexpectedState
deriving DecidableEq, Repr

/-- The retry loop of `base.with_retry`, one constructor-step per
remaining loop iteration. `op` is the wrapped async operation as an
oracle from the attempt index to its outcome; the returned list is the
sequence of `asyncio.sleep` durations in order. On an attempt's failure
with no retries left the error is re-raised unchanged; otherwise the loop
sleeps `base_delay * backoff_factor ^ attempt` and retries. -/
def retryFrom {E A : Type} (op : Nat → Except E A) (max_retries : Nat)
    (base_delay backoff_factor : ℚ) :
    Nat → Option E → Nat → Except (RetryExit E) A × List ℚ
  | _, lastExc, 0 =>
    (match lastExc with
     | some e => (.error (.raised e), [])
     | Option.none => (.error .unexpectedState, []))
  | attempt, _, fuel + 1 =>
    match op attempt with
    | .ok a => (.ok a, [])
    | .error e =>
      if max_retries ≤ attempt then (.error (.raised e), [])
      else
        let delay := base_delay * backoff_factor ^ attempt
        let r := retryFrom op max_retries base_delay backoff_factor
          (attempt + 1) (some e) fuel
        (r.1, delay :: r.2)

/-- Model of `base.with_retry`: run the wrapped operation for attempts
`0 .. max_retries` (the `for attempt in range(max_retries + 1)` loop),
returning the final outcome together with the sleep schedule. -/
def with_retry {E A : Type} (op : Nat → Except E A) (max_retries : Nat)
    (base_delay backoff_factor : ℚ) : Except (RetryExit E) A × List ℚ :=
  retryFrom op max_retries base_delay backoff_factor 0 Option.none
    (max_retries + 1)

/-- Configuration for local filesystem output
(`config.LocalOutputConfig`). -/
structure LocalOutputConfig where
  type : String := "local"
  name : Option String := Option.none
  path : String
  filename_pattern : String := "\x7bprovider\x7d_\x7bdate\x7d_\x7btime\x7d.\x7bformat\x7d"
  create_dirs : Bool := true
  overwrite : Bool := false
  compression : String := "none"

/-- Configuration for S3-compatible storage output
(`config.S3OutputConfig`); `key_prefix` carries the source field named
after the key-prefix (a reserved word here). -/
structure S3OutputConfig where
  type : String := "s3"
  name : Option String := Option.none
  bucket : String
  key_prefix : String := ""
  region : Option String := Option.none
  endpoint_url : Option String := Option.none
  filename_pattern : String := "\x7bprovider\x7d_\x7btimestamp\x7d.\x7bformat\x7d"
  compression : String := "none"
  credentials : Option (List (String × String)) := Option.none
  storage_class : String := "STANDARD"
  server_side_encryption : Option String := Option.none
  acl : String := "private"
  metadata : Option (List (String × String)) := Option.none

/-- Configuration for HTTPS endpoint output
(`config.HTTPSOutputConfig`). -/
structure HTTPSOutputConfig where
  type : String := "https"
  name : Option String := Option.none
  url : String
  method : String := "POST"
  headers : Option (List (String × String)) := Option.none
  batch_size : Option Nat := Option.none
  batch_delay : ℚ := 0
  timeout : Nat := 30
  retry_attempts : Nat := 3
  retry_delay : Nat := 5
  retry_backoff : ℚ := 2
  retry_on_status : List Nat := [500, 502, 503, 504]
  verify_ssl : Bool := true
  client_cert : Option String := Option.none
  client_key : Option String := Option.none

/-- The `OutputConfig` tagged union (`LocalOutputConfig | S3OutputConfig |
HTTPSOutputConfig`). -/
inductive OutputConfig where
  | localOut (cfg : LocalOutputConfig)
  | s3Out (cfg : S3OutputConfig)
  | httpsOut (cfg : HTTPSOutputConfig)

/-- The `type` attribute of an output config (used by the executor's
failure records). -/
def OutputConfig.typeTag : OutputConfig → String
  | .localOut _ => "local"
  | .s3Out _ => "s3"
  | .httpsOut _ => "https"

/-- The `name` attribute of an output config. -/
def OutputConfig.nameOf : OutputConfig → Option String
  | .localOut c => c.name
  | .s3Out c => c.name
  | .httpsOut c => c.name

/-- The `TransformerConfig` tagged union (`JSONTransformerConfig |
CSVTransformerConfig | MetricsTransformerConfig`); the executor's
`isinstance` dispatch is exhaustive over it, so its unknown-transformer
fallback is unreachable for configs pydantic can construct. -/
inductive TransformerConfig where
  | json (cfg : JSONTransformerConfig)
  | csv (cfg : CSVTransformerConfig)
  | metrics (cfg : MetricsTransformerConfig)

/-- Configuration for a single export pipeline
(`config.PipelineConfig`). -/
structure PipelineConfig where
  name : String
  description : Option String := Option.none
  enabled : Bool := true
  filters : List FilterConfig := []
  transformer : TransformerConfig
  outputs : List OutputConfig

/-- Root export configuration (`config.ExportConfig`). -/
structure ExportConfig where
  version : String := "1.0"
  pipelines : List PipelineConfig

/-- The message carried by a raised `FilterError` (`str(e)` as recorded by
the executor; the wording abbreviates the Python text, which is not
load-bearing). -/
def FilterErr.message : FilterErr → String
  | .fieldNotFound f => "Field " ++ f ++ " does not exist on GPUInstance"
  | .requiresValue op => op ++ " operator requires value parameter"
  | .requiresValues op => op ++ " operator requires values parameter"
  | .requiresMinMax => "between operator requires min and max parameters"
  | .nonStringField op => op ++ " operator requires string field"
  | .unknownOperator op => "Unknown operator: " ++ op
  | .evalError f => "Filter evaluation failed for " ++ f

/-- The message carried by a raised `TransformerError` (`str(e)` as
recorded by the executor; the wording abbreviates the Python text). -/
def TransformerErr.message : TransformerErr → String
  | .metricRequiresField n => "Metric " ++ n ++ " requires field parameter"
  | .unknownMetricType t => "Unknown metric type: " ++ t
  | .metricRequiresGroupBy n => "Metric " ++ n ++ " requires group_by parameter"
  | .groupFieldNotExist f => "Field " ++ f ++ " does not exist on GPUInstance"
  | .typeErr => "Metrics transformation failed"

/-- One per-output outcome dict built by `execute_pipeline`: the output
type tag and name, the destination detail entries (`path`, or
`bucket`/`key`, or `url` plus the HTTPS summary), the success flag, and
the error message on failure. -/
structure OutputRecord where
  otype : String
  name : Option String
  info : List (String × String)
  success : Bool
  error : Option String := Option.none
deriving DecidableEq, Repr

/-- Result of pipeline execution (`pipeline.PipelineResult`). The
wall-clock timing fields (`duration_seconds` and the per-stage durations)
are real-time measurements and are not modelled. -/
structure PipelineResult where
  pipeline_name : String
  enabled : Bool
  input_count : Nat
  filtered_count : Nat
  output_count : Nat
  outputs : List OutputRecord
  error : Option String := Option.none
deriving DecidableEq, Repr

/-- The `PipelineResult.success` property: the pipeline-level error is
unset. -/
def PipelineResult.success (r : PipelineResult) : Bool :=
  r.error.isNone

/-- The `PipelineResult.successful_outputs` property. -/
def PipelineResult.successful_outputs (r : PipelineResult) : Nat :=
  (r.outputs.filter (fun o => o.success)).length

/-- The `PipelineResult.failed_outputs` property. -/
def PipelineResult.failed_outputs (r : PipelineResult) : Nat :=
  (r.outputs.filter (fun o => !o.success)).length

/-- The effectful output connectors (`write_to_local`, `write_to_s3`,
`write_to_https`), passed to the executor as oracles: each takes the
payload and its config and returns the destination descriptor (path, S3
key, or HTTPS summary entries) or the message of the raised exception. -/
structure WriteEnv where
  writeLocal : String → LocalOutputConfig → Except String String
  writeS3 : String → S3OutputConfig → Except String String
  writeHttps : String → HTTPSOutputConfig → Except String (List (String × String))

/-- Step 1 of `execute_pipeline`: filters are applied only when the list
is nonempty (`if config.filters:`), which agrees with
`filter_instances` on the empty list. -/
def filterStep (instances : List GPUInstance)
    (filters : List FilterConfig) : Except FilterErr (List GPUInstance) :=
  if filters.isEmpty then .ok instances
  else filter_instances instances filters

/-- Step 2 of `execute_pipeline`: dispatch on the transformer config
variant (the JSON and CSV transformers cannot fail in the model; the
metrics transformer can). -/
def transformStep (nowIso : String) (filtered : List GPUInstance) :
    TransformerConfig → Except TransformerErr String
  | .json c => .ok (transform_to_json filtered c)
  | .csv c => .ok (transform_to_csv filtered c)
  | .metrics c => transform_to_metrics nowIso filtered c

/-- One output write inside step 3 of `execute_pipeline`, as the
destination entries it contributes on success. -/
def outputAttempt (env : WriteEnv) (data : String) :
    OutputConfig → Except String (List (String × String))
  | .localOut c => (env.writeLocal data c).map (fun path => [("path", path)])
  | .s3Out c =>
    (env.writeS3 data c).map (fun key => [("bucket", c.bucket), ("key", key)])
  | .httpsOut c =>
    (env.writeHttps data c).map (fun stats => ("url", c.url) :: stats)

/-- One iteration of the output loop of `execute_pipeline`: a successful
write yields a success record with its destination detail; an exception
is caught and recorded as a failure record carrying `str(e)`. -/
def writeOneOutput (env : WriteEnv) (data : String) (oc : OutputConfig) :
    OutputRecord :=
  match outputAttempt env data oc with
  | .ok info =>
    { otype := oc.typeTag, name := oc.nameOf, info := info, success := true,
      error := Option.none }
  | .error msg =>
    { otype := oc.typeTag, name := oc.nameOf, info := [], success := false,
      error := some msg }

/-- Model of `pipeline.execute_pipeline`: a disabled pipeline returns
immediately with zero counts; otherwise filter, transform (a failure in
either stage is caught at the pipeline level and recorded in `error`
with empty outputs), then write to every configured output in order,
collecting per-output records, and return with `error` unset. -/
def execute_pipeline (env : WriteEnv) (nowIso : String)
    (instances : List GPUInstance) (config : PipelineConfig) :
    PipelineResult :=
  if !config.enabled then
    { pipeline_name := config.name, enabled := false,
      input_count := instances.length, filtered_count := 0,
      output_count := 0, outputs := [], error := Option.none }
  else
    match filterStep instances config.filters with
    | .error e =>
      { pipeline_name := config.name, enabled := true,
        input_count := instances.length, filtered_count := 0,
        output_count := 0, outputs := [], error := some e.message }
    | .ok filtered =>
      match transformStep nowIso filtered config.transformer with
      | .error e =>
        { pipeline_name := config.name, enabled := true,
          input_count := instances.length, filtered_count := 0,
          output_count := 0, outputs := [], error := some e.message }
      | .ok data =>
        let output_results := config.outputs.map (writeOneOutput env data)
        { pipeline_name := config.name, enabled := true,
          input_count := instances.length,
          filtered_count := filtered.length,
          output_count := output_results.length,
          outputs := output_results, error := Option.none }

/-- Model of `pipeline.execute_pipelines`: run each configured pipeline
independently, in order. -/
def execute_pipelines (env : WriteEnv) (nowIso : String)
    (instances : List GPUInstance) (config : ExportConfig) :
    List PipelineResult :=
  config.pipelines.map (execute_pipeline env nowIso instances)

/-- The evaluation-time error branches of `apply_filter` that re-check
what construction-time validation already guarantees: the
missing-operand errors and the unknown-operator fallback. -/
def FilterErr.isMissingOperandOrUnknownOp : FilterErr → Bool
  | .requiresValue _ => true
  | .requiresValues _ => true
  | .requiresMinMax => true
  | .unknownOperator _ => true
  | _ => false

/-- Whether an instance has a non-null value for `field` (false when the
attribute is absent or `None`), the records `_compute_metric` keeps. -/
def fieldNonNull (field : String) (i : GPUInstance) : Bool :=
  match getattrGPU i field with
  | some .none => false
  | some _ => true
  | Option.none => false

/-- The character class `[A-Za-z0-9-_.]` named by the specification for
sanitized filename components. -/
def specKeepChar (c : Char) : Bool :=
  (65 ≤ c.val && c.val ≤ 90) || (97 ≤ c.val && c.val ≤ 122) ||
  (48 ≤ c.val && c.val ≤ 57) || c = Char.ofNat 45 ||
  c = Char.ofNat 95 || c = Char.ofNat 46

/-- Sanitization as worded by the specification: path separators become
`_`, every `..` becomes `__`, and every remaining character outside
`[A-Za-z0-9-_.]` becomes `_`. -/
def specSanitize (value : String) : String :=
  let s :=
    pyReplace (pyReplace (pyReplace value "/" "_") "\\" "_") ".." "__"
  String.mk (s.toList.map (fun c => if specKeepChar c then c else Char.ofNat 95))

/-- Field selection as worded by the specification for a supplied rename
map: only the named source fields are emitted, each under its target
alias, in rename-map order (a named field absent from the dumped record
contributes nothing). -/
def specRenameProject (m : List (String × String))
    (item : List (String × JVal)) : List (String × JVal) :=
  m.filterMap (fun p => (item.lookup p.1).map (fun v => (p.2, v)))

/-- The uniform null-handling step applied across the selected fields, as
worded by the specification: under the `empty` policy a null value
becomes the empty string, otherwise values are kept. -/
def specNullStep (null_handling : String) (item : List (String × JVal)) :
    List (String × JVal) :=
  if null_handling == "empty" then
    item.map (fun p => (p.1, match p.2 with | .none => .str "" | v => v))
  else item

/-- A `get_field_value` failure is always the missing-field error. -/
theorem get_field_value_error_shape (inst : GPUInstance) (f : String)
    (e : FilterErr) (h : get_field_value inst f = Except.error e) :
    e = .fieldNotFound f := by
  unfold get_field_value at h
  cases hg : getattrGPU inst f <;> rw [hg] at h <;> simp_all

/-- C4: for every filter clause with operator `lt`, `lte`, `gt`, `gte` or
`between` that passed construction-time validation, a null field value
makes `apply_filter` return `false` without raising. -/
theorem comparison_null_field_false (inst : GPUInstance) (cfg : FilterConfig)
    (hvalid : filterConfigValid cfg = true)
    (hop : cfg.operator = "lt" ∨ cfg.operator = "lte" ∨ cfg.operator = "gt" ∨
      cfg.operator = "gte" ∨ cfg.operator = "between")
    (hnull : get_field_value inst cfg.field = Except.ok JVal.none) :
    apply_filter inst cfg = Except.ok false := by
  have hvof : validate_operator_fields cfg = true := by
    have := hvalid
    simp only [filterConfigValid, Bool.and_eq_true] at this
    exact this.2
  unfold apply_filter
  rw [hnull]
  unfold apply_filter_op
  rcases hop with h | h | h | h | h <;> rw [h] <;>
    simp only [validate_operator_fields, h] at hvof <;> simp_all <;>
    first
    | (cases hcv : cfg.value with
       | none => simp_all
       | some v => simp [hcv])
    | (cases hmn : cfg.min with
       | none => simp_all
       | some mn =>
         cases hmx : cfg.max with
         | none => simp_all
         | some mx => simp [hmn, hmx])

/-- Witness for C4 at a concrete clause and instance. -/
theorem comparison_null_field_false_witness :
    apply_filter
      { provider := "P", instance_type := "T", accelerator_name := "G",
        accelerator_count := 1, region := "R", price := 1,
        availability := .high }
      { field := "spot_price", operator := "lt", value := some (.num 2) } =
      Except.ok false :=
  comparison_null_field_false _ _ rfl (Or.inl rfl) rfl

/-- C8: for every `FilterConfig` that passed construction-time validation
(known operator token, mandatory operands present), `apply_filter` can
never return one of the missing-operand errors nor reach the
unknown-operator fallback, on any instance. -/
theorem validated_filter_no_missing_operand (inst : GPUInstance)
    (cfg : FilterConfig) (hvalid : filterConfigValid cfg = true) :
    ∀ e, apply_filter inst cfg = Except.error e →
      e.isMissingOperandOrUnknownOp = false := by
  intro e he
  have hc := hvalid
  simp only [filterConfigValid, Bool.and_eq_true] at hc
  obtain ⟨hmem, hvof⟩ := hc
  simp only [filterOperators, List.contains] at hmem
  simp at hmem
  unfold apply_filter at he
  cases hgf : get_field_value inst cfg.field with
  | error e0 =>
    rw [hgf] at he
    cases he
    have h2 := get_field_value_error_shape inst cfg.field _ hgf
    subst h2
    rfl
  | ok fv =>
    rw [hgf] at he
    simp only [] at he
    unfold apply_filter_op at he
    obtain h | h | h | h | h | h | h | h | h | h | h | h | h | h := hmem <;>
      (rw [h] at he
       simp only [validate_operator_fields, h] at hvof
       try simp at hvof
       try simp at he
       try (repeat' split at he)
       all_goals first
         | (cases he; rfl)
         | (obtain ⟨hv1, hv2⟩ := hvof
            obtain ⟨a, ha⟩ := Option.isSome_iff_exists.mp hv1
            obtain ⟨b, hb⟩ := Option.isSome_iff_exists.mp hv2
            simp_all)
         | simp_all [FilterErr.isMissingOperandOrUnknownOp])

/-- Restricting the input to the instances with a non-null `field` does
not change the values `_compute_metric` aggregates. -/
theorem metricValues_filter_nonNull (instances : List GPUInstance)
    (f : String) :
    metricValues (instances.filter (fieldNonNull f)) f =
      metricValues instances f := by
  induction instances with
  | nil => rfl
  | cons i rest ih =>
    simp only [List.filter_cons]
    cases hg : getattrGPU i f with
    | none =>
      have : fieldNonNull f i = false := by simp [fieldNonNull, hg]
      simp only [this, Bool.false_eq_true, if_false, ih]
      simp [metricValues, List.filterMap_cons, hg, ih]
    | some v =>
      cases v <;>
        simp [fieldNonNull, hg, metricValues, List.filterMap_cons, ih] <;>
        simp [metricValues] at ih <;> exact ih

/-- With every instance null (or missing) at `field`, no values remain. -/
theorem metricValues_all_null (instances : List GPUInstance) (f : String)
    (h : ∀ i ∈ instances, fieldNonNull f i = false) :
    metricValues instances f = [] := by
  induction instances with
  | nil => rfl
  | cons i rest ih =>
    have hi := h i (List.mem_cons_self i rest)
    have hr := ih (fun j hj => h j (List.mem_cons_of_mem i hj))
    simp only [metricValues, List.filterMap_cons] at hr ⊢
    cases hg : getattrGPU i f with
    | none => simpa [hg] using hr
    | some v =>
      cases v <;> simp_all [fieldNonNull, hg]

/-- C3 (amended): for the `avg`/`min`/`max`/`sum`/`unique` aggregations,
null values of the source field are filtered out before aggregation
(dropping the null-field instances changes nothing), and when zero
non-null values remain every one of the five aggregations — `unique`
included — yields Python `None` (JSON null). -/
theorem metric_null_filtering (instances : List GPUInstance)
    (m : MetricConfig) (f : String)
    (htype : m.type = "avg" ∨ m.type = "min" ∨ m.type = "max" ∨
      m.type = "sum" ∨ m.type = "unique")
    (hf : m.field = some f) :
    compute_metric instances m =
      compute_metric (instances.filter (fieldNonNull f)) m ∧
    ((∀ i ∈ instances, fieldNonNull f i = false) →
      compute_metric instances m = Except.ok JVal.none) := by
  have hc : (m.type == "count") = false := by
    rcases htype with h | h | h | h | h <;> simp [h]
  constructor
  · unfold compute_metric
    rw [hf]
    simp only [hc, Bool.false_eq_true, if_false]
    rw [metricValues_filter_nonNull]
  · intro hall
    unfold compute_metric
    rw [hf]
    simp only [hc, Bool.false_eq_true, if_false]
    rw [metricValues_all_null instances f hall]
    rfl

/-- Witness for the amended C3 at a concrete all-null input (average of a
list whose only instance has a null `spot_price`). -/
theorem metric_null_filtering_witness :
    compute_metric
      [{ provider := "Test", instance_type := "type1",
         accelerator_name := "GPU1", accelerator_count := 1,
         region := "us-east-1", price := 1, availability := .high }]
      { name := "avg_spot_price", type := "avg", field := some "spot_price" } =
      Except.ok JVal.none :=
  (metric_null_filtering _ _ "spot_price" (Or.inl rfl) rfl).2
    (by intro i hi; rw [List.mem_singleton] at hi; subst hi; rfl)

/-- Counterexample to C3 as stated: a `unique` aggregation over zero
non-null values yields JSON null in the code, not 0. -/
theorem unique_empty_yields_null_not_zero :
    compute_metric
      [{ provider := "Test", instance_type := "type1",
         accelerator_name := "GPU1", accelerator_count := 1,
         region := "us-east-1", price := 1, availability := .high }]
      { name := "unique_spot", type := "unique", field := some "spot_price" } =
      Except.ok JVal.none ∧
    (Except.ok JVal.none : Except TransformerErr JVal) ≠
      Except.ok (JVal.int 0) :=
  ⟨rfl, by simp⟩

/-- Witness for C8: a validated `contains` clause on a numeric field
evaluates to the string-type error, which is not a missing-operand or
unknown-operator error. -/
theorem validated_filter_no_missing_operand_witness :
    FilterErr.isMissingOperandOrUnknownOp (.nonStringField "contains") =
      false :=
  validated_filter_no_missing_operand
    { provider := "P", instance_type := "T", accelerator_name := "G",
      accelerator_count := 1, region := "R", price := 1,
      availability := .high }
    { field := "price", operator := "contains", value := some (.str "x") }
    rfl (.nonStringField "contains") rfl

/-- The retry loop, entered at `attempt` with enough fuel, when the next
`k` attempts fail and attempt `attempt + k` succeeds within the retry
budget: it returns that success and sleeps
`base_delay * backoff_factor ^ i` for each failed attempt index `i`. -/
theorem retryFrom_success {E A : Type} (op : Nat → Except E A) (mr : Nat)
    (b f : ℚ) :
    ∀ (k attempt fuel : Nat) (lastE : Option E) (a : A),
      (∀ i < k, ∃ e, op (attempt + i) = Except.error e) →
      op (attempt + k) = Except.ok a →
      attempt + k ≤ mr →
      k < fuel →
      retryFrom op mr b f attempt lastE fuel =
        (Except.ok a, (List.range' attempt k).map (fun i => b * f ^ i)) := by
  intro k
  induction k with
  | zero =>
    intro attempt fuel lastE a hfail hok hle hfuel
    cases fuel with
    | zero => omega
    | succ fuel =>
      rw [Nat.add_zero] at hok
      unfold retryFrom
      rw [hok]
      simp [List.range']
  | succ k ih =>
    intro attempt fuel lastE a hfail hok hle hfuel
    cases fuel with
    | zero => omega
    | succ fuel =>
      obtain ⟨e, he⟩ := hfail 0 (Nat.succ_pos k)
      rw [Nat.add_zero] at he
      unfold retryFrom
      rw [he]
      dsimp only
      rw [if_neg (by omega : ¬ mr ≤ attempt)]
      have ih2 := ih (attempt + 1) fuel (some e) a
        (fun i hi => by
          have h2 := hfail (i + 1) (by omega)
          rwa [show attempt + (i + 1) = attempt + 1 + i by omega] at h2)
        (by rwa [show attempt + 1 + k = attempt + (k + 1) by omega])
        (by omega) (by omega)
      rw [ih2, List.range'_succ]
      simp

/-- The retry loop, entered at `attempt = mr - k` with enough fuel, when
every remaining attempt fails: it re-raises the error of the final
attempt unchanged and sleeps once per non-final failed attempt. -/
theorem retryFrom_exhaust {E A : Type} (op : Nat → Except E A) (mr : Nat)
    (b f : ℚ) :
    ∀ (k attempt fuel : Nat) (lastE : Option E) (eLast : E),
      attempt + k = mr →
      (∀ i, i ≤ k → ∃ e, op (attempt + i) = Except.error e) →
      op mr = Except.error eLast →
      k < fuel →
      retryFrom op mr b f attempt lastE fuel =
        (Except.error (.raised eLast),
          (List.range' attempt k).map (fun i => b * f ^ i)) := by
  intro k
  induction k with
  | zero =>
    intro attempt fuel lastE eLast hmr hfail hlast hfuel
    cases fuel with
    | zero => omega
    | succ fuel =>
      rw [Nat.add_zero] at hmr
      subst hmr
      unfold retryFrom
      rw [hlast]
      dsimp only
      rw [if_pos (le_refl attempt)]
      simp [List.range']
  | succ k ih =>
    intro attempt fuel lastE eLast hmr hfail hlast hfuel
    cases fuel with
    | zero => omega
    | succ fuel =>
      obtain ⟨e, he⟩ := hfail 0 (Nat.zero_le _)
      rw [Nat.add_zero] at he
      unfold retryFrom
      rw [he]
      dsimp only
      rw [if_neg (by omega : ¬ mr ≤ attempt)]
      have ih2 := ih (attempt + 1) fuel (some e) eLast (by omega)
        (fun i hi => by
          have h2 := hfail (i + 1) (by omega)
          rwa [show attempt + (i + 1) = attempt + 1 + i by omega] at h2)
        hlast (by omega)
      rw [ih2, List.range'_succ]
      simp

/-- C5: the retry combinator (1) on `k` initial failures followed by a
success within the budget returns that success after sleeping exactly
`base_delay * backoff_factor ^ i` for `i = 0 .. k-1`, in order; (2) with
`max_retries = 0` it never sleeps, returns a first-attempt success as is,
and re-raises a first-attempt error unchanged; (3) when all
`max_retries + 1` attempts fail it re-raises the last attempt's error
unchanged after the full sleep schedule. -/
theorem with_retry_spec {E A : Type} (op : Nat → Except E A)
    (max_retries : Nat) (b f : ℚ) :
    (∀ k a, k ≤ max_retries →
      (∀ i < k, ∃ e, op i = Except.error e) →
      op k = Except.ok a →
      with_retry op max_retries b f =
        (Except.ok a, (List.range k).map (fun i => b * f ^ i))) ∧
    ((with_retry op 0 b f).2 = [] ∧
      (∀ a, op 0 = Except.ok a →
        with_retry op 0 b f = (Except.ok a, [])) ∧
      (∀ e, op 0 = Except.error e →
        with_retry op 0 b f = (Except.error (.raised e), []))) ∧
    ((∀ i ≤ max_retries, ∃ e, op i = Except.error e) →
      ∀ e, op max_retries = Except.error e →
        with_retry op max_retries b f =
          (Except.error (.raised e),
            (List.range max_retries).map (fun i => b * f ^ i))) := by
  refine ⟨?_, ⟨?_, ?_, ?_⟩, ?_⟩
  · intro k a hk hfail hok
    unfold with_retry
    rw [retryFrom_success op max_retries b f k 0 (max_retries + 1)
      Option.none a (by simpa using hfail) (by simpa using hok)
      (by omega) (by omega)]
    rw [List.range_eq_range']
  · cases hop : op 0 <;> simp [with_retry, retryFrom, hop]
  · intro a ha
    simp [with_retry, retryFrom, ha]
  · intro e he
    simp [with_retry, retryFrom, he]
  · intro hfail e he
    unfold with_retry
    rw [retryFrom_exhaust op max_retries b f max_retries 0 (max_retries + 1)
      Option.none e (by omega) (by simpa using fun i hi => hfail i hi) he
      (by omega)]
    rw [List.range_eq_range']

/-- Witness for C5: with `base_delay = 5` and `backoff_factor = 2`, an
operation failing three times then succeeding sleeps exactly 5, 10, 20
seconds and returns the success value of the fourth call. -/
theorem with_retry_spec_witness :
    with_retry
      (fun i => if i < 3 then Except.error (100 + i) else Except.ok 42)
      3 5 2 = (Except.ok 42, [5, 10, 20]) := by
  have h :=
    (with_retry_spec
      (fun i => if i < 3 then Except.error (100 + i) else Except.ok 42)
      3 5 2).1 3 42 (le_refl 3)
    (fun i hi => ⟨100 + i, by simp [hi]⟩)
    (by norm_num)
  rw [h]
  norm_num [List.range_succ]

/-- C6: on any failing path of `_write_atomic` (the temp-file write fails
with or without a partial temp file, or the rename fails), the write
reports failure, no `.tmp` file remains, and the target path is exactly
as it was before the call — no partial target file. -/
theorem write_atomic_failure_clean (fs : FS) (path data : String)
    (outcome : AtomicOutcome) (h : outcome ≠ .ok) :
    (write_atomic fs path data outcome).1 = false ∧
    (write_atomic fs path data outcome).2 (path ++ ".tmp") = Option.none ∧
    (write_atomic fs path data outcome).2 path = fs path := by
  have hne : ¬ path = path ++ ".tmp" := by
    intro hcontra
    have hlen := congrArg String.length hcontra
    rw [String.length_append] at hlen
    have h4 : (".tmp" : String).length = 4 := rfl
    omega
  cases outcome with
  | ok => exact absurd rfl h
  | renameFails =>
    exact ⟨rfl, by simp [write_atomic, fsSet, fsDel],
      by simp [write_atomic, fsSet, fsDel, hne]⟩
  | writePartial w =>
    exact ⟨rfl, by simp [write_atomic, fsSet, fsDel],
      by simp [write_atomic, fsSet, fsDel, hne]⟩
  | writeNoFile =>
    refine ⟨rfl, ?_, ?_⟩ <;>
      cases hfs : fs (path ++ ".tmp") <;>
      simp_all [write_atomic, fsDel, hne]

/-- Witness for C6 at a concrete interrupted write on an empty
directory. -/
theorem write_atomic_failure_clean_witness :
    (write_atomic (fun _ => Option.none) "out/data.json" "payload"
      (.writePartial "pa")).1 = false ∧
    (write_atomic (fun _ => Option.none) "out/data.json" "payload"
      (.writePartial "pa")).2 ("out/data.json" ++ ".tmp") = Option.none ∧
    (write_atomic (fun _ => Option.none) "out/data.json" "payload"
      (.writePartial "pa")).2 "out/data.json" =
      (fun _ => (Option.none : Option String)) "out/data.json" :=
  write_atomic_failure_clean _ _ _ _ (by simp)

/-- Every character produced by the replace scan comes from the input or
from the replacement string. -/
theorem replaceGo_chars (p : Char) (ps repl : List Char) :
    (n : Nat) → (l : List Char) → ∀ c ∈ replaceGo p ps repl n l,
      c ∈ l ∨ c ∈ repl
  | _, [] => by intro c hc; unfold replaceGo at hc; simp at hc
  | 0, c0 :: rest => by
    intro c hc
    unfold replaceGo at hc
    by_cases h : (p :: ps).isPrefixOf (c0 :: rest) = true
    · rw [if_pos h] at hc
      rcases List.mem_append.mp hc with h2 | h2
      · exact Or.inr h2
      · rcases replaceGo_chars p ps repl ps.length rest c h2 with h3 | h3
        · exact Or.inl (List.mem_cons_of_mem _ h3)
        · exact Or.inr h3
    · rw [if_neg h] at hc
      rcases List.mem_cons.mp hc with h2 | h2
      · exact Or.inl (h2 ▸ List.mem_cons_self _ _)
      · rcases replaceGo_chars p ps repl 0 rest c h2 with h3 | h3
        · exact Or.inl (List.mem_cons_of_mem _ h3)
        · exact Or.inr h3
  | n + 1, c0 :: rest => by
    intro c hc
    unfold replaceGo at hc
    rcases replaceGo_chars p ps repl n rest c hc with h3 | h3
    · exact Or.inl (List.mem_cons_of_mem _ h3)
    · exact Or.inr h3

/-- Every character of a replaced string comes from the original string
or from the replacement. -/
theorem pyReplace_chars (s pattern repl : String) :
    ∀ c ∈ (pyReplace s pattern repl).data, c ∈ s.data ∨ c ∈ repl.data := by
  intro c hc
  unfold pyReplace at hc
  cases hp : pattern.toList with
  | nil =>
    rw [hp] at hc
    exact Or.inl hc
  | cons p ps =>
    rw [hp] at hc
    exact (replaceGo_chars p ps repl.toList 0 s.toList c hc).imp id id

/-- C7 (amended): sanitization agrees with the specification's
`[A-Za-z0-9-_.]` transformation on every all-ASCII metadata value
(separators to `_`, `..` to `__`, remaining characters outside the class
to `_`) — non-ASCII Python alphanumerics are kept instead, see the
counterexample — and substituting the metadata value
`"../../etc/passwd"` into the pattern `"\x7bprovider\x7d_data.json"`
yields exactly `"______etc_passwd_data.json"`. -/
theorem sanitize_spec_on_ascii :
    (∀ v : String, (∀ c ∈ v.data, c.toNat < 128) →
      sanitize_path_component v = specSanitize v) ∧
    apply_filename_pattern "\x7bprovider\x7d_data.json"
      [("provider", "../../etc/passwd")]
      { date := "20240101", time := "000000", timestamp := "20240101000000",
        year := "2024", month := "01", day := "01", hour := "00",
        minute := "00", second := "00" } =
      Except.ok "______etc_passwd_data.json" := by
  constructor
  · intro v hv
    unfold sanitize_path_component specSanitize
    dsimp only
    apply congrArg String.mk
    apply List.map_congr_left
    intro c hc
    have hascii : c.toNat < 128 := by
      rcases pyReplace_chars _ ".." "__" c hc with h1 | h1
      · rcases pyReplace_chars _ "\\" "_" c h1 with h2 | h2
        · rcases pyReplace_chars _ "/" "_" c h2 with h3 | h3
          · exact hv c h3
          · have h4 : c = Char.ofNat 95 := by simpa using h3
            subst h4; decide
        · have h4 : c = Char.ofNat 95 := by simpa using h2
          subst h4; decide
      · have h4 : c = Char.ofNat 95 ∨ c = Char.ofNat 95 := by simpa using h1
        rcases h4 with h4 | h4 <;> (subst h4; decide)
    have hpy : pyIsAlnum c = c.isAlphanum := by
      unfold pyIsAlnum
      rw [if_pos hascii]
    rw [hpy]
    have hcond : (c.isAlphanum || c = Char.ofNat 45 || c = Char.ofNat 95 ||
        c = Char.ofNat 46) = specKeepChar c := by
      simp [specKeepChar, Char.isAlphanum, Char.isAlpha, Char.isDigit,
        Char.isUpper, Char.isLower]
    rw [hcond]
  · rfl

/-- Witness for the amended C7 at the concrete all-ASCII traversal
value. -/
theorem sanitize_spec_on_ascii_witness :
    sanitize_path_component "../../etc/passwd" =
      specSanitize "../../etc/passwd" :=
  sanitize_spec_on_ascii.1 "../../etc/passwd" (by decide)

/-- Counterexample to C7 as stated: Python `str.isalnum` is
Unicode-aware, so the non-ASCII alphanumeric in `"café"` is kept by the
code although it lies outside the `[A-Za-z0-9-_.]` class the claim says
every remaining character is reduced to. -/
theorem sanitize_keeps_unicode_alnum :
    sanitize_path_component "café" = "café" ∧
    specSanitize "café" = "caf_" ∧
    ("café" : String) ≠ "caf_" := by
  refine ⟨rfl, rfl, ?_⟩
  decide

/-- Every key emitted by the rename-map projection is one of the map's
target aliases. -/
theorem specRenameProject_keys (m : List (String × String))
    (item : List (String × JVal)) :
    ∀ p ∈ specRenameProject m item, p.1 ∈ m.map Prod.snd := by
  induction m with
  | nil => intro p hp; simp [specRenameProject] at hp
  | cons e rest ih =>
    intro p hp
    simp only [specRenameProject, List.filterMap_cons] at hp
    cases hl : item.lookup e.1 with
    | none =>
      rw [hl] at hp
      simp only [Option.map_none'] at hp
      exact List.mem_cons_of_mem _ (ih p (by simpa [specRenameProject] using hp))
    | some v =>
      rw [hl] at hp
      simp only [Option.map_some'] at hp
      rcases List.mem_cons.mp hp with h | h
      · subst h; simp
      · exact List.mem_cons_of_mem _ (ih p (by simpa [specRenameProject] using h))

/-- When the rename map's target aliases avoid the name `raw_data`, the
executor's raw-data stripping step leaves the projected record
unchanged. -/
theorem filter_rawdata_id (m : List (String × String))
    (item : List (String × JVal)) (hsnd : "raw_data" ∉ m.map Prod.snd) :
    (specRenameProject m item).filter (fun p => !(p.1 == "raw_data")) =
      specRenameProject m item := by
  apply List.filter_eq_self.mpr
  intro p hp
  have hkey := specRenameProject_keys m item p hp
  simp only [Bool.not_eq_eq_eq_not, Bool.not_true, beq_eq_false_iff_ne, ne_eq]
  intro hcontra
  exact hsnd (hcontra ▸ hkey)

/-- The uniform null-handling step preserves the keys of a record. -/
theorem specNullStep_keys (nh : String) (item : List (String × JVal)) :
    ∀ p ∈ specNullStep nh item, ∃ q ∈ item, p.1 = q.1 := by
  intro p hp
  unfold specNullStep at hp
  by_cases h : (nh == "empty") = true
  · simp only [h, if_true] at hp
    obtain ⟨q, hq, hpq⟩ := List.mem_map.mp hp
    exact ⟨q, hq, by rw [← hpq]⟩
  · simp only [eq_false_of_ne_true h, Bool.false_eq_true, if_false] at hp
    exact ⟨p, hp, rfl⟩


/-- The selection fold over a rename map with pairwise-distinct target
aliases, started from an accumulator whose keys avoid those aliases,
appends exactly one entry per named source field present in the dumped
record (no dict-assignment ever overwrites). -/
theorem selectRename_go (item : List (String × JVal)) :
    ∀ (m : List (String × String)) (acc : List (String × JVal)),
      (m.map Prod.snd).Nodup →
      (∀ a ∈ m.map Prod.snd, ∀ q ∈ acc, q.1 ≠ a) →
      m.foldl (fun d p =>
        match item.lookup p.1 with
        | some v => dictSet p.2 v d
        | Option.none => d) acc =
      acc ++ specRenameProject m item := by
  intro m
  induction m with
  | nil => intro acc _ _; simp [specRenameProject]
  | cons e rest ih =>
    intro acc hnodup hd
    simp only [List.map_cons, List.nodup_cons] at hnodup
    simp only [List.foldl_cons]
    cases hl : item.lookup e.1 with
    | none =>
      dsimp only
      rw [ih acc hnodup.2
        (fun a ha q hq => hd a (List.mem_cons_of_mem _ ha) q hq)]
      simp [specRenameProject, List.filterMap_cons, hl]
    | some v =>
      dsimp only
      have hnotin : acc.any (fun p => p.1 == e.2) = false := by
        rw [List.any_eq_false]
        intro q hq
        simpa using hd e.2 (List.mem_cons_self _ _) q hq
      have hset : dictSet e.2 v acc = acc ++ [(e.2, v)] := by
        unfold dictSet
        rw [hnotin]
        simp
      have hacc : ∀ a ∈ rest.map Prod.snd, ∀ q ∈ acc ++ [(e.2, v)],
          q.1 ≠ a := by
        intro a ha q hq
        rcases List.mem_append.mp hq with h | h
        · exact hd a (List.mem_cons_of_mem _ ha) q h
        · have hq2 : q = (e.2, v) := by simpa using h
          subst hq2
          intro hcontra
          exact hnodup.1 (by rwa [← hcontra] at ha)
      rw [hset, ih (acc ++ [(e.2, v)]) hnodup.2 hacc]
      simp [specRenameProject, List.filterMap_cons, hl, List.append_assoc]

/-- With pairwise-distinct target aliases, the dict comprehension of
`transform_to_json` emits exactly the spec-worded projection: one entry
per named source field present in the record, under its alias, in map
order. -/
theorem selectRename_eq_spec (m : List (String × String))
    (item : List (String × JVal))
    (hnodup : (m.map Prod.snd).Nodup) :
    selectRename m item = specRenameProject m item := by
  unfold selectRename
  rw [selectRename_go item m [] hnodup (by intro a _ q hq; simp at hq)]
  simp

/-- C2 (amended): for a nonempty rename map with pairwise-distinct target
aliases that names `raw_data` neither as a source field nor as a target
alias, `transform_to_json` emits, for each record, exactly the named
source fields present in the dumped record under their target aliases
(with the uniform null-handling step applied), and the raw-data field
never appears in the output — independent of the include-raw-data
flag. -/
theorem json_rename_exclusive (instances : List GPUInstance)
    (config : JSONTransformerConfig) (m : List (String × String))
    (hf : config.fields = some m) (hm : m ≠ [])
    (hnodup : (m.map Prod.snd).Nodup)
    (hfst : "raw_data" ∉ m.map Prod.fst)
    (hsnd : "raw_data" ∉ m.map Prod.snd) :
    jsonTransformData instances config =
      instances.map (fun i =>
        specNullStep config.null_handling
          (specRenameProject m
            (model_dump (config.null_handling == "omit") i))) ∧
    ∀ rec ∈ jsonTransformData instances config, ∀ p ∈ rec,
      p.1 ≠ "raw_data" := by
  have hne : m.isEmpty = false := by
    cases m with
    | nil => exact absurd rfl hm
    | cons a l => rfl
  have h1 : jsonTransformData instances config =
      instances.map (fun i =>
        specNullStep config.null_handling
          (specRenameProject m
            (model_dump (config.null_handling == "omit") i))) := by
    unfold jsonTransformData
    rw [hf]
    dsimp only
    rw [show selectRename m = specRenameProject m from
      funext (fun item => selectRename_eq_spec m item hnodup)]
    by_cases hnh : (config.null_handling == "empty") = true <;>
      cases hird : config.include_raw_data <;>
      unfold specNullStep <;>
      simp only [hnh, eq_false_of_ne_true, hird, hne, Bool.not_false,
        Bool.not_true, if_true, if_false, Bool.false_eq_true,
        Bool.true_eq_false, List.map_map] <;>
      first
      | rfl
      | (apply List.map_congr_left
         intro i _
         first
         | exact filter_rawdata_id m _ hsnd
         | exact congrArg _ (filter_rawdata_id m _ hsnd))
  refine ⟨h1, ?_⟩
  intro rec hrec p hp
  rw [h1] at hrec
  obtain ⟨i, _, hi⟩ := List.mem_map.mp hrec
  subst hi
  obtain ⟨q, hq, hpq⟩ := specNullStep_keys _ _ p hp
  have hkey := specRenameProject_keys m _ q hq
  intro hcontra
  rw [hpq] at hcontra
  exact hsnd (hcontra ▸ hkey)

/-- Witness for the amended C2: a one-entry rename map emits exactly the
aliased provider field. -/
theorem json_rename_exclusive_witness :
    jsonTransformData
      [{ provider := "RunPod", instance_type := "T",
         accelerator_name := "G", accelerator_count := 1, region := "R",
         price := 1, availability := .high,
         raw_data := [("k", .str "v")] }]
      { fields := some [("provider", "cloud")] } =
      [[("cloud", JVal.str "RunPod")]] := by
  have h := (json_rename_exclusive
    [{ provider := "RunPod", instance_type := "T",
       accelerator_name := "G", accelerator_count := 1, region := "R",
       price := 1, availability := .high,
       raw_data := [("k", .str "v")] }]
    { fields := some [("provider", "cloud")] }
    [("provider", "cloud")] rfl (by simp) (by simp) (by simp) (by simp)).1
  rw [h]
  rfl

/-- Counterexample to C2 as stated, in two parts. First, a rename map
that names `raw_data` with `include_raw_data` enabled emits the raw-data
content, so the raw-data field is not excluded regardless of the flag.
Second, a rename map whose two entries share the target alias emits a
single entry (the dict comprehension is last-wins on a duplicate alias),
not one entry per named source field. -/
theorem rename_map_naming_raw_data_leaks :
    (jsonTransformData
      [{ provider := "P", instance_type := "T", accelerator_name := "G",
         accelerator_count := 1, region := "R", price := 1,
         availability := .high, raw_data := [("k", .str "v")] }]
      { fields := some [("raw_data", "raw_data")],
        include_raw_data := true } =
      [[("raw_data", JVal.obj [("k", JVal.str "v")])]] ∧
    (jsonTransformData
      [{ provider := "P", instance_type := "T", accelerator_name := "G",
         accelerator_count := 1, region := "R", price := 1,
         availability := .high, raw_data := [("k", .str "v")] }]
      { fields := some [("raw_data", "raw_data")],
        include_raw_data := true }).all
      (fun rec => rec.all (fun p => !(p.1 == "raw_data"))) = false) ∧
    jsonTransformData
      [{ provider := "Provider1", instance_type := "T",
         accelerator_name := "G", accelerator_count := 1,
         region := "us-east-1", price := 1, availability := .high }]
      { fields := some [("provider", "x"), ("region", "x")] } =
      [[("x", JVal.str "us-east-1")]] :=
  ⟨⟨rfl, rfl⟩, rfl⟩

/-- Decimal digit characters are not the newline character. -/
theorem digitChar_ne_newline : ∀ d, d < 10 →
    ¬ (Char.ofNat 10 = Char.ofNat (48 + d)) := by decide

/-- The digit expansion contains no newline character. -/
theorem natDigitsGo_no_newline : ∀ fuel n,
    Char.ofNat 10 ∉ natDigitsGo fuel n := by
  intro fuel
  induction fuel with
  | zero => intro n; simp [natDigitsGo]
  | succ fuel ih =>
    intro n
    unfold natDigitsGo
    split_ifs with h
    · simpa using digitChar_ne_newline n h
    · simp only [List.mem_append, not_or]
      exact ⟨ih _, by
        simpa using digitChar_ne_newline (n % 10) (Nat.mod_lt n (by omega))⟩

/-- Rendered naturals contain no newline character. -/
theorem natToString_no_newline (n : Nat) :
    Char.ofNat 10 ∉ (natToString n).data :=
  natDigitsGo_no_newline (n + 1) n

/-- Rendered integers contain no newline character. -/
theorem intToString_no_newline (i : Int) :
    Char.ofNat 10 ∉ (intToString i).data := by
  unfold intToString
  split_ifs with h
  · simp only [String.data_append, List.mem_append, not_or]
    exact ⟨by decide, natToString_no_newline _⟩
  · exact natToString_no_newline _

/-- Hex digit characters are not the newline character. -/
theorem hexDigit_ne_newline : ∀ d, d < 16 →
    ¬ (Char.ofNat 10 = hexDigit d) := by decide

/-- Four-digit hex renderings contain no newline character. -/
theorem hex4_no_newline (n : Nat) : Char.ofNat 10 ∉ (hex4 n).data := by
  unfold hex4
  simp only [String.mk, List.mem_cons, List.not_mem_nil, or_false, not_or]
  refine ⟨?_, ?_, ?_, ?_⟩ <;>
    exact hexDigit_ne_newline _ (Nat.mod_lt _ (by omega))

/-- One escaped character contains no literal newline (the newline
character itself escapes to backslash-n). -/
theorem jsonEscapeChar_no_newline (ea : Bool) (c : Char) :
    Char.ofNat 10 ∉ (jsonEscapeChar ea c).data := by
  unfold jsonEscapeChar
  split_ifs with h1 h2 h3 h4 h5 h6 h7 h8 h9 h10 <;>
    first
    | decide
    | (simp only [String.data_append, List.mem_append, not_or]
       and_intros <;>
         first
         | decide
         | exact hex4_no_newline _)
    | (intro heq
       have hc : Char.ofNat 10 = c := by simpa using heq
       exact h3 hc.symm)

/-- Joined escaped fragments contain no newline character. -/
theorem concatList_no_newline (l : List String)
    (h : ∀ s ∈ l, Char.ofNat 10 ∉ s.data) :
    Char.ofNat 10 ∉ (concatList l).data := by
  induction l with
  | nil => simp [concatList]
  | cons s rest ih =>
    simp only [concatList, String.data_append, List.mem_append, not_or]
    exact ⟨h s (List.mem_cons_self s rest),
      ih (fun t ht => h t (List.mem_cons_of_mem s ht))⟩

/-- A JSON string literal contains no literal newline. -/
theorem jsonQuote_no_newline (ea : Bool) (s : String) :
    Char.ofNat 10 ∉ (jsonQuote ea s).data := by
  unfold jsonQuote
  simp only [String.data_append, List.mem_append, not_or]
  refine ⟨⟨by decide, ?_⟩, by decide⟩
  exact concatList_no_newline _ (fun t ht => by
    obtain ⟨c, _, hc⟩ := List.mem_map.mp ht
    exact hc ▸ jsonEscapeChar_no_newline ea c)

/-- Rendered floats contain no newline character. -/
theorem renderDecimal_no_newline (q : ℚ) :
    Char.ofNat 10 ∉ (renderDecimal q).data := by
  unfold renderDecimal
  by_cases h1 : q.den = 1
  · rw [if_pos h1]
    simp only [String.data_append, List.mem_append, not_or]
    exact ⟨intToString_no_newline _, by decide⟩
  · rw [if_neg h1]
    cases hfind : (List.range 30).find?
        (fun k => (q * (10 : ℚ) ^ (k + 1)).den = 1) with
    | none =>
      dsimp only
      simp only [String.data_append, List.mem_append, not_or]
      exact ⟨⟨intToString_no_newline _, by decide⟩, natToString_no_newline _⟩
    | some k =>
      dsimp only
      simp only [String.data_append, List.mem_append, not_or]
      and_intros <;>
        first
        | decide
        | (split_ifs <;> decide)
        | exact natToString_no_newline _
        | (intro hmem
           exact absurd (List.eq_of_mem_replicate hmem) (by decide))

mutual

/-- The single-line serializer never emits a literal newline. -/
theorem dumpsCompact_no_newline (ea : Bool) :
    (v : JVal) → Char.ofNat 10 ∉ (dumpsCompact ea v).data
  | .none => by unfold dumpsCompact; decide
  | .bool b => by unfold dumpsCompact; cases b <;> decide
  | .int n => by unfold dumpsCompact; exact intToString_no_newline n
  | .num q => by unfold dumpsCompact; exact renderDecimal_no_newline q
  | .str s => by unfold dumpsCompact; exact jsonQuote_no_newline ea s
  | .avail a => by unfold dumpsCompact; exact jsonQuote_no_newline ea a.value
  | .arr l => by
    unfold dumpsCompact
    simp only [String.data_append, List.mem_append, not_or]
    exact ⟨⟨by decide, dumpsCompactArr_no_newline ea l⟩, by decide⟩
  | .obj l => by
    unfold dumpsCompact
    simp only [String.data_append, List.mem_append, not_or]
    exact ⟨⟨by decide, dumpsCompactObj_no_newline ea l⟩, by decide⟩

/-- Single-line array items never contain a literal newline. -/
theorem dumpsCompactArr_no_newline (ea : Bool) :
    (l : List JVal) → Char.ofNat 10 ∉ (dumpsCompactArr ea l).data
  | [] => by unfold dumpsCompactArr; decide
  | [v] => by unfold dumpsCompactArr; exact dumpsCompact_no_newline ea v
  | v :: w :: rest => by
    unfold dumpsCompactArr
    simp only [String.data_append, List.mem_append, not_or]
    exact ⟨⟨dumpsCompact_no_newline ea v, by decide⟩,
      dumpsCompactArr_no_newline ea (w :: rest)⟩

/-- Single-line object entries never contain a literal newline. -/
theorem dumpsCompactObj_no_newline (ea : Bool) :
    (l : List (String × JVal)) → Char.ofNat 10 ∉ (dumpsCompactObj ea l).data
  | [] => by unfold dumpsCompactObj; decide
  | [(k, v)] => by
    unfold dumpsCompactObj
    simp only [String.data_append, List.mem_append, not_or]
    exact ⟨⟨jsonQuote_no_newline ea k, by decide⟩,
      dumpsCompact_no_newline ea v⟩
  | (k, v) :: e :: rest => by
    unfold dumpsCompactObj
    simp only [String.data_append, List.mem_append, not_or]
    exact ⟨⟨⟨⟨jsonQuote_no_newline ea k, by decide⟩,
      dumpsCompact_no_newline ea v⟩, by decide⟩,
      dumpsCompactObj_no_newline ea (e :: rest)⟩

end

/-- C9 (amended): with pretty-printing disabled, the JSON transform is a
single line — it contains no newline character; its only incidental
whitespace is the single space inside the default Python separators after
each comma and key colon, as exhibited by the counterexample below. -/
theorem compact_json_single_line (instances : List GPUInstance)
    (config : JSONTransformerConfig) (h : config.pretty_print = false) :
    Char.ofNat 10 ∉ (transform_to_json instances config).data := by
  unfold transform_to_json
  simp only [h, Bool.false_eq_true, if_false]
  exact dumpsCompact_no_newline true _

/-- Witness for the amended C9 at a concrete record. -/
theorem compact_json_single_line_witness :
    Char.ofNat 10 ∉
      (transform_to_json
        [{ provider := "RunPod", instance_type := "T",
           accelerator_name := "G", accelerator_count := 1, region := "R",
           price := 1, availability := .high }]
        { fields := some [("provider", "provider")] }).data :=
  compact_json_single_line _ _ rfl

/-- Counterexample to C9 as stated: with pretty-printing off, the output
serializes with Python's default separators, so a space follows every key
colon (and every comma) even though no string value contains a space. -/
theorem compact_json_has_separator_spaces :
    transform_to_json
      [{ provider := "RunPod", instance_type := "T",
         accelerator_name := "G", accelerator_count := 1, region := "R",
         price := 1, availability := .high }]
      { fields := some [("provider", "provider")] } =
      "[\x7b\"provider\": \"RunPod\"\x7d]" ∧
    ("[\x7b\"provider\": \"RunPod\"\x7d]".toList.contains (Char.ofNat 32)) =
      true ∧
    ("RunPod".toList.contains (Char.ofNat 32)) = false ∧
    ("provider".toList.contains (Char.ofNat 32)) = false :=
  ⟨rfl, rfl, rfl, rfl⟩

/-- C1: for an enabled pipeline whose filter and transform stages
succeed, the executor writes the payload to every configured output in
the configured order (one record per output, in order); an exception
raised while writing one output is caught and recorded as that output's
failure record (success flag false, its message as the error), a
successful write yields a success record, and the pipeline-level `error`
field remains unset no matter how many outputs fail. -/
theorem pipeline_outputs_isolated (env : WriteEnv) (nowIso : String)
    (instances : List GPUInstance) (config : PipelineConfig)
    (filtered : List GPUInstance) (data : String)
    (hen : config.enabled = true)
    (hfil : filterStep instances config.filters = Except.ok filtered)
    (htr : transformStep nowIso filtered config.transformer =
      Except.ok data) :
    (execute_pipeline env nowIso instances config).error = Option.none ∧
    (execute_pipeline env nowIso instances config).outputs =
      config.outputs.map (writeOneOutput env data) ∧
    (∀ oc msg, outputAttempt env data oc = Except.error msg →
      (writeOneOutput env data oc).success = false ∧
      (writeOneOutput env data oc).error = some msg) ∧
    (∀ oc info, outputAttempt env data oc = Except.ok info →
      (writeOneOutput env data oc).success = true ∧
      (writeOneOutput env data oc).error = Option.none) := by
  have hrun : execute_pipeline env nowIso instances config =
      { pipeline_name := config.name, enabled := true,
        input_count := instances.length,
        filtered_count := filtered.length,
        output_count := (config.outputs.map (writeOneOutput env data)).length,
        outputs := config.outputs.map (writeOneOutput env data),
        error := Option.none } := by
    unfold execute_pipeline
    rw [hen]
    dsimp only
    rw [hfil]
    dsimp only
    rw [htr]
    simp
  refine ⟨by rw [hrun], by rw [hrun], ?_, ?_⟩
  · intro oc msg hoc
    unfold writeOneOutput
    rw [hoc]
    exact ⟨rfl, rfl⟩
  · intro oc info hoc
    unfold writeOneOutput
    rw [hoc]
    exact ⟨rfl, rfl⟩

/-- Witness for C1: two local outputs, the second failing; both are
attempted in order, the failure is recorded per-output, and the
pipeline-level error stays unset. -/
theorem pipeline_outputs_isolated_witness :
    (execute_pipeline
      { writeLocal := fun _ c =>
          if c.name == some "bad" then Except.error "boom"
          else Except.ok "/out/f.json",
        writeS3 := fun _ _ => Except.error "no creds",
        writeHttps := fun _ _ => Except.ok [("total_requests", "1")] }
      "2024-01-01T00:00:00+00:00"
      [{ provider := "RunPod", instance_type := "T",
         accelerator_name := "G", accelerator_count := 1, region := "R",
         price := 1, availability := .high }]
      { name := "p",
        transformer := .json { fields := some [("provider", "provider")] },
        outputs := [.localOut { path := "/out", name := some "good" },
                    .localOut { path := "/out", name := some "bad" }] }).error =
      Option.none ∧
    (execute_pipeline
      { writeLocal := fun _ c =>
          if c.name == some "bad" then Except.error "boom"
          else Except.ok "/out/f.json",
        writeS3 := fun _ _ => Except.error "no creds",
        writeHttps := fun _ _ => Except.ok [("total_requests", "1")] }
      "2024-01-01T00:00:00+00:00"
      [{ provider := "RunPod", instance_type := "T",
         accelerator_name := "G", accelerator_count := 1, region := "R",
         price := 1, availability := .high }]
      { name := "p",
        transformer := .json { fields := some [("provider", "provider")] },
        outputs := [.localOut { path := "/out", name := some "good" },
                    .localOut { path := "/out", name := some "bad" }] }).outputs =
      [{ otype := "local", name := some "good",
         info := [("path", "/out/f.json")], success := true,
         error := Option.none },
       { otype := "local", name := some "bad", info := [], success := false,
         error := some "boom" }] := by
  have h := pipeline_outputs_isolated
    { writeLocal := fun _ c =>
        if c.name == some "bad" then Except.error "boom"
        else Except.ok "/out/f.json",
      writeS3 := fun _ _ => Except.error "no creds",
      writeHttps := fun _ _ => Except.ok [("total_requests", "1")] }
    "2024-01-01T00:00:00+00:00"
    [{ provider := "RunPod", instance_type := "T",
       accelerator_name := "G", accelerator_count := 1, region := "R",
       price := 1, availability := .high }]
    { name := "p",
      transformer := .json { fields := some [("provider", "provider")] },
      outputs := [.localOut { path := "/out", name := some "good" },
                  .localOut { path := "/out", name := some "bad" }] }
    [{ provider := "RunPod", instance_type := "T",
       accelerator_name := "G", accelerator_count := 1, region := "R",
       price := 1, availability := .high }]
    (transform_to_json
      [{ provider := "RunPod", instance_type := "T",
         accelerator_name := "G", accelerator_count := 1, region := "R",
         price := 1, availability := .high }]
      { fields := some [("provider", "provider")] })
    rfl rfl rfl
  exact ⟨h.1, by rw [h.2.1]; rfl⟩

/-- C10: for an enabled pipeline whose filter and transform stages
succeed, the result's `error` is unset and `success` is true whatever the
per-output outcomes are (the writer environment is arbitrary); and for
every `PipelineResult` whatsoever, `success` holds exactly when the
pipeline-level `error` is unset, independent of the per-output success
flags. -/
theorem pipeline_success_iff_no_error (env : WriteEnv) (nowIso : String)
    (instances : List GPUInstance) (config : PipelineConfig)
    (filtered : List GPUInstance) (data : String)
    (hen : config.enabled = true)
    (hfil : filterStep instances config.filters = Except.ok filtered)
    (htr : transformStep nowIso filtered config.transformer =
      Except.ok data) :
    (execute_pipeline env nowIso instances config).error = Option.none ∧
    (execute_pipeline env nowIso instances config).success = true ∧
    (∀ r : PipelineResult, r.success = r.error.isNone) := by
  have hrun : execute_pipeline env nowIso instances config =
      { pipeline_name := config.name, enabled := true,
        input_count := instances.length,
        filtered_count := filtered.length,
        output_count := (config.outputs.map (writeOneOutput env data)).length,
        outputs := config.outputs.map (writeOneOutput env data),
        error := Option.none } := by
    unfold execute_pipeline
    rw [hen]
    dsimp only
    rw [hfil]
    dsimp only
    rw [htr]
    simp
  exact ⟨by rw [hrun], by rw [hrun]; rfl, fun r => rfl⟩

/-- Witness for C10: with every output failing, the result still has
`success = true`, an unset error, and two failed outputs. -/
theorem pipeline_success_iff_no_error_witness :
    (execute_pipeline
      { writeLocal := fun _ _ => Except.error "disk full",
        writeS3 := fun _ _ => Except.error "no creds",
        writeHttps := fun _ _ => Except.error "timeout" }
      "2024-01-01T00:00:00+00:00"
      [{ provider := "RunPod", instance_type := "T",
         accelerator_name := "G", accelerator_count := 1, region := "R",
         price := 1, availability := .high }]
      { name := "p2",
        transformer := .json { fields := some [("provider", "provider")] },
        outputs := [.localOut { path := "/out", name := some "a" },
                    .localOut { path := "/out", name := some "b" }] }).success =
      true ∧
    (execute_pipeline
      { writeLocal := fun _ _ => Except.error "disk full",
        writeS3 := fun _ _ => Except.error "no creds",
        writeHttps := fun _ _ => Except.error "timeout" }
      "2024-01-01T00:00:00+00:00"
      [{ provider := "RunPod", instance_type := "T",
         accelerator_name := "G", accelerator_count := 1, region := "R",
         price := 1, availability := .high }]
      { name := "p2",
        transformer := .json { fields := some [("provider", "provider")] },
        outputs := [.localOut { path := "/out", name := some "a" },
                    .localOut { path := "/out", name := some "b" }] }).failed_outputs =
      2 := by
  have h := pipeline_success_iff_no_error
    { writeLocal := fun _ _ => Except.error "disk full",
      writeS3 := fun _ _ => Except.error "no creds",
      writeHttps := fun _ _ => Except.error "timeout" }
    "2024-01-01T00:00:00+00:00"
    [{ provider := "RunPod", instance_type := "T",
       accelerator_name := "G", accelerator_count := 1, region := "R",
       price := 1, availability := .high }]
    { name := "p2",
      transformer := .json { fields := some [("provider", "provider")] },
      outputs := [.localOut { path := "/out", name := some "a" },
                  .localOut { path := "/out", name := some "b" }] }
    [{ provider := "RunPod", instance_type := "T",
       accelerator_name := "G", accelerator_count := 1, region := "R",
       price := 1, availability := .high }]
    (transform_to_json
      [{ provider := "RunPod", instance_type := "T",
         accelerator_name := "G", accelerator_count := 1, region := "R",
         price := 1, availability := .high }]
      { fields := some [("provider", "provider")] })
    rfl rfl rfl
  exact ⟨h.2.1, rfl⟩
